import Mathlib

/-!
Verification of the thamluan task-workflow orchestrator.

This file gives a shallow embedding of the orchestrator core of the
repository (src/thamluan): the Task/AgentState data model
(core/types.py), the BaseAgent helpers (agents/base.py), the
ManagerAgent routing logic (agents/manager.py), the worker agents
(agents/dev.py, agents/res.py) and the engine-level continuation check
(core/auto.py).  External tools (web crawler, PDF downloader and
extractor, news search, article scraper, CSV exporter, vector DB,
TextBlob sentiment scoring, LLM calls) are modelled as oracle outcomes
supplied to each worker step; timestamps are modelled as natural
numbers.  Python's in-place mutation of the shared current Task object
(which is aliased inside task_history) is modelled by representing
current_task as an index into task_history.
-/

namespace Thamluan

/-- Agent roles (core/types.py AgentRole). -/
inductive AgentRole
  | MANAGER
  | WEB_CRAWLER
  | PDF_HANDLER
  | CONTENT_EXTRACTOR
  | SEARCH_AGENT
  | SCRAPER_AGENT
deriving DecidableEq

/-- The string value of a role (core/types.py, str-valued enum). -/
def AgentRole.value : AgentRole → String
  | .MANAGER => "manager"
  | .WEB_CRAWLER => "web_crawler"
  | .PDF_HANDLER => "pdf_handler"
  | .CONTENT_EXTRACTOR => "content_extractor"
  | .SEARCH_AGENT => "search_agent"
  | .SCRAPER_AGENT => "scraper_agent"

/-- Task lifecycle statuses (core/types.py TaskStatus). -/
inductive TaskStatus
  | PENDING
  | IN_PROGRESS
  | COMPLETED
  | FAILED
  | SKIPPED
deriving DecidableEq

/-- Task kinds (core/types.py TaskType). -/
inductive TaskType
  | CRAWL_WEB
  | DOWNLOAD_PDF
  | EXTRACT_CONTENT
  | SEARCH_OPINIONS
  | SCRAPE_COMMENTS
  | SCRAPE_ARTICLES
  | EXPORT_DATA
deriving DecidableEq

/-- A PDF link found by the web crawler tool (dicts with url/text keys). -/
structure PdfLink where
  url : String
  text : String := ""
deriving DecidableEq

/-- PDF document record (core/types.py PDFDocument). -/
structure PDFDocument where
  url : String
  local_path : Option String := none
  title : Option String := none
  content : Option String := none
  page_count : Nat := 0
  file_size : Option Nat := none
deriving DecidableEq

/-- Keywords extracted from the PDF (core/types.py ExtractedKeywords).
A Python dataclass instance is always truthy, even with empty lists;
presence in the state is modelled with Option. -/
structure ExtractedKeywords where
  main_keywords : List String := []
  entities : List String := []
  key_phrases : List String := []
  summary : Option String := none
deriving DecidableEq

/-- A scraped article dict with its sentiment label.  The label itself
comes from TextBlob float polarity thresholding (external tool, out of
the orchestrator's scope), so it is carried with the oracle data. -/
structure Article where
  url : String := ""
  title : String := ""
  content : String := ""
  source : String := ""
  sentiment : String := "neutral"
deriving DecidableEq

/-- A search result dict (url/title/snippet plus the relevance score the
SearchAgent attaches).  The float avg_relevance aggregate is omitted
(floating point). -/
structure SearchResult where
  url : String
  title : String := ""
  snippet : String := ""
  relevance_score : Nat := 0
deriving DecidableEq

/-- Task input payloads (input_data dicts): the union of the keys the
embedded code writes or reads. -/
structure InputData where
  url : Option String := none
  find_pdf : Bool := false
  pdf_links : Option PDFDocument := none
  pdf_path : Option String := none
  keywords : Option ExtractedKeywords := none
  urls_to_scrape : List String := []
  analyzed_articles : List Article := []
deriving DecidableEq

/-- Task output payloads (output_data dicts): the union of the keys the
embedded code writes.  An empty dict is the default value. -/
structure OutputData where
  pdf_url : Option String := none
  pdf_links : List PdfLink := []
  page_title : Option String := none
  local_path : Option String := none
  file_size : Option Nat := none
  page_count : Option Nat := none
  keywords_count : Option Nat := none
  phrases_count : Option Nat := none
  text_length : Option Nat := none
  search_queries : List String := []
  total_results : Option Nat := none
  unique_results : Option Nat := none
  final_results : Option Nat := none
  articles_count : Option Nat := none
  urls_scraped : Option Nat := none
  max_loop_reached : Bool := false
  articles : List Article := []
  csv_path : Option String := none
deriving DecidableEq

/-- One unit of work (core/types.py Task). -/
structure Task where
  task_id : String := ""
  task_type : TaskType := .CRAWL_WEB
  status : TaskStatus := .PENDING
  assigned_to : Option AgentRole := none
  input_data : InputData := {}
  output_data : OutputData := {}
  error_message : Option String := none
  created_at : Nat := 0
  completed_at : Option Nat := none
deriving DecidableEq

instance : Inhabited Task := ⟨{}⟩

/-- An entry of the error log (base.py log_error builds these dicts). -/
structure ErrorEntry where
  agent : AgentRole
  message : String
  timestamp : Nat
  details : List (String × String) := []
deriving DecidableEq

/-- The shared workflow state (core/types.py AgentState).  current_task
is an index into task_history: in Python the in-flight Task object is
the same object that sits in the history list, so mutating it through
either reference updates both.  processed_urls is a Python set, modelled
as a duplicate-free list with membership and union. -/
structure AgentState where
  target_url : String := ""
  project_name : String := ""
  current_task : Option Nat := none
  task_history : List Task := []
  current_agent : Option AgentRole := none
  pdf_document : Option PDFDocument := none
  extracted_keywords : Option ExtractedKeywords := none
  search_queries : List String := []
  search_results : List SearchResult := []
  analyzed_articles : List Article := []
  processed_urls : List String := []
  scrape_articles_done : Bool := false
  scrape_loop_count : Nat := 0
  export_loop_count : Nat := 0
  vector_db_collection : Option String := none
  embedded_documents : List String := []
  csv_output_path : Option String := none
  pdf_local_path : Option String := none
  errors : List ErrorEntry := []
  warnings : List String := []
  started_at : Nat := 0
  last_updated : Nat := 0
  is_complete : Bool := false
deriving DecidableEq

/-- create_initial_state (core/types.py): empty history, zero counters,
is_complete = false. -/
def create_initial_state (target_url project_name : String) (now : Nat) : AgentState :=
  { target_url := target_url
    project_name := project_name
    started_at := now
    last_updated := now }

/-- BaseAgent.create_task: a fresh PENDING task with an id derived from
the creating role and the current timestamp. -/
def create_task (role : AgentRole) (task_type : TaskType) (input_data : InputData)
    (now : Nat) : Task :=
  { task_id := role.value ++ "_" ++ toString now
    task_type := task_type
    status := .PENDING
    assigned_to := some role
    input_data := input_data
    created_at := now }

/-- BaseAgent.complete_task: with an error it marks the task FAILED and
stores the error message; otherwise it marks it COMPLETED and stores the
output.  Either way completed_at is (re)assigned to the current time. -/
def complete_task (task : Task) (output_data : OutputData) (error : Option String)
    (now : Nat) : Task :=
  match error with
  | some e =>
      { task with status := .FAILED, error_message := some e, completed_at := some now }
  | none =>
      { task with status := .COMPLETED, output_data := output_data, completed_at := some now }

/-- The bookkeeping part of BaseAgent.update_state: stamps last_updated
and current_agent.  The field updates of each call site are applied
inline where the call occurs. -/
def update_state_meta (role : AgentRole) (now : Nat) (s : AgentState) : AgentState :=
  { s with last_updated := now, current_agent := some role }

/-- Writing the mutated current Task back: in Python the Task object is
aliased between current_task and task_history, so completing it updates
the history entry in place; here the history slot is overwritten and the
index is unchanged. -/
def set_current_task (s : AgentState) (ci : Nat) (t : Task) : AgentState :=
  { s with task_history := s.task_history.set ci t }

/-- BaseAgent.log_error: appends one entry with the worker identity, the
message, a timestamp and optional structured details. -/
def log_error (role : AgentRole) (s : AgentState) (message : String)
    (details : List (String × String)) (now : Nat) : AgentState :=
  { s with errors := s.errors ++ [{ agent := role, message := message,
                                    timestamp := now, details := details }] }

/-- BaseAgent.log_warning: appends a tagged warning string. -/
def log_warning (role : AgentRole) (s : AgentState) (w : String) : AgentState :=
  { s with warnings := s.warnings ++ ["[" ++ role.value ++ "] " ++ w] }

/-- BaseAgent.should_continue (agents/base.py): false once the error log
has more than 5 entries.  It only reports; it does not modify the state. -/
def BaseAgent.should_continue (s : AgentState) : Bool :=
  ! (s.errors.length > 5 : Bool)

/-- Where the engine's conditional edge goes after a worker node
(core/auto.py should_continue): either back to the manager or to END. -/
inductive EngineRoute
  | toManager
  | toEnd
deriving DecidableEq

/-- should_continue (core/auto.py): END when the workflow is complete or
more than 5 errors have accumulated, otherwise loop to the manager.  It
returns a route only; the state is passed through unmodified. -/
def should_continue (s : AgentState) : EngineRoute :=
  if s.is_complete || s.errors.length > 5 then .toEnd else .toManager

/-- Whether some completed task of the given type is in the history
(manager.py: completed_types membership test). -/
def task_type_completed (hist : List Task) (ty : TaskType) : Bool :=
  hist.any fun k => k.status == TaskStatus.COMPLETED && k.task_type == ty

/-- manager.py task_already_created: any occurrence of the type in the
history, of any status, or as the current task. -/
def task_already_created (hist : List Task) (cur : Task) (ty : TaskType) : Bool :=
  hist.any (fun k => k.task_type == ty) || cur.task_type == ty

/-- The tail of ManagerAgent._monitor_and_decide and _start_workflow:
if a next task was produced, update_state sets it as current and
update_state_task appends it to the history; otherwise the state is
returned as is. -/
def dispatch_next (now : Nat) (s : AgentState) (next_task : Option Task) : AgentState :=
  match next_task with
  | none => s
  | some t =>
      let s' := update_state_meta .MANAGER now s
      { s' with current_task := some s'.task_history.length
                task_history := s'.task_history ++ [t] }

/-- The if/elif chain of ManagerAgent._monitor_and_decide (lines
103-131): the first stage whose predecessor is completed and which is
itself neither completed nor already created proposes a task, provided
its prerequisite data is present (Python truthiness of the state field). -/
def chain_next (now : Nat) (hist : List Task) (cur : Task)
    (pdfDoc : Option PDFDocument) (pdfPath : Option String)
    (kw : Option ExtractedKeywords) : Option Task :=
  if task_type_completed hist .CRAWL_WEB && ! task_type_completed hist .DOWNLOAD_PDF then
    if ! task_already_created hist cur .DOWNLOAD_PDF && pdfDoc.isSome then
      some (create_task .MANAGER .DOWNLOAD_PDF { pdf_links := pdfDoc } now)
    else none
  else if task_type_completed hist .DOWNLOAD_PDF && ! task_type_completed hist .EXTRACT_CONTENT then
    if ! task_already_created hist cur .EXTRACT_CONTENT && pdfPath.isSome then
      some (create_task .MANAGER .EXTRACT_CONTENT { pdf_path := pdfPath } now)
    else none
  else if task_type_completed hist .EXTRACT_CONTENT && ! task_type_completed hist .SEARCH_OPINIONS then
    if ! task_already_created hist cur .SEARCH_OPINIONS && kw.isSome then
      some (create_task .MANAGER .SEARCH_OPINIONS { keywords := kw } now)
    else none
  else none

/-- The scrape-task block of _monitor_and_decide (lines 142-173).
Returns the possibly replaced next task and the new value of
scrape_articles_done:  when SEARCH_OPINIONS is completed, scraping is
not done and no scrape task exists, either a scrape task for the
not-yet-processed result urls is proposed, or (with nothing left to
scrape, or no results at all) the stage is marked done. -/
def scrape_next (now : Nat) (hist : List Task) (cur : Task) (done : Bool)
    (results : List SearchResult) (processed : List String)
    (prev : Option Task) : Option Task × Bool :=
  if task_type_completed hist .SEARCH_OPINIONS && ! done
      && ! (hist.any (fun k => k.task_type == TaskType.SCRAPE_ARTICLES)
            || cur.task_type == TaskType.SCRAPE_ARTICLES) then
    if ! results.isEmpty then
      let urls_to_scrape :=
        (results.filter (fun r => ! processed.contains r.url)).map (fun r => r.url)
      if ! urls_to_scrape.isEmpty then
        (some (create_task .MANAGER .SCRAPE_ARTICLES { urls_to_scrape := urls_to_scrape } now),
         done)
      else (prev, true)
    else (prev, true)
  else (prev, done)

/-- ManagerAgent._monitor_and_decide (manager.py lines 77-213).  The
export block (lines 181-198) and the dispatch tail (lines 203-209) are
inlined; when EXPORT_DATA is already completed the function sets
is_complete and returns early, dropping any produced next task. -/
def ManagerAgent.monitor_and_decide (now : Nat) (s : AgentState) : AgentState :=
  match s.current_task with
  | none => s
  | some ci =>
      let hist := s.task_history
      let cur := hist.getD ci default
      let next1 := chain_next now hist cur s.pdf_document s.pdf_local_path s.extracted_keywords
      let nd := scrape_next now hist cur s.scrape_articles_done s.search_results
                  s.processed_urls next1
      let next2 := nd.1
      let done2 := nd.2
      if done2 && ! task_type_completed hist .EXPORT_DATA then
        if ! task_already_created hist cur .EXPORT_DATA then
          if ! s.analyzed_articles.isEmpty then
            dispatch_next now { s with scrape_articles_done := done2 }
              (some (create_task .MANAGER .EXPORT_DATA
                      { analyzed_articles := s.analyzed_articles } now))
          else
            dispatch_next now { s with scrape_articles_done := done2, is_complete := true } next2
        else
          dispatch_next now { s with scrape_articles_done := done2 } next2
      else if task_type_completed hist .EXPORT_DATA then
        { s with scrape_articles_done := done2, is_complete := true }
      else
        dispatch_next now { s with scrape_articles_done := done2 } next2

/-- ManagerAgent._start_workflow: creates the first CRAWL_WEB task for
the target url and dispatches it. -/
def ManagerAgent.start_workflow (now : Nat) (s : AgentState) : AgentState :=
  dispatch_next now s
    (some (create_task .MANAGER .CRAWL_WEB { url := some s.target_url, find_pdf := true } now))

/-- ManagerAgent.execute: start a new workflow when no task is in
flight, otherwise monitor and decide.  The body is pure, so the
surrounding try/except never fires. -/
def ManagerAgent.execute (now : Nat) (s : AgentState) : AgentState :=
  match s.current_task with
  | none => ManagerAgent.start_workflow now s
  | some _ => ManagerAgent.monitor_and_decide now s

/-- Outcome of the web crawler tool calls inside WebCrawlerAgent.execute
(find_pdf_links): a raised exception, a failed ToolResult, or a list of
pdf links. -/
inductive CrawlOutcome
  | raised (msg : String)
  | toolFail (err : String)
  | toolOk (links : List PdfLink)

/-- Python's url.lower().endswith('.pdf') (dev.py line 48), computed
over the character list. -/
def lower_ends_with_pdf (url : String) : Bool :=
  (".pdf".data).isSuffixOf (url.data.map Char.toLower)

/-- The tail of WebCrawlerAgent.execute once pdf_links are in hand
(dev.py lines 57-78): an empty list only logs an error; otherwise the
first link is selected, the task completed and pdf_document set. -/
def crawl_finish (now : Nat) (s : AgentState) (ci : Nat) (cur : Task) (url : String)
    (pdf_links : List PdfLink) : AgentState :=
  match pdf_links with
  | [] => log_error .WEB_CRAWLER s "No PDF links found on the page." [] now
  | first :: _ =>
      let t := complete_task cur
        { pdf_url := some first.url, pdf_links := pdf_links, page_title := some url } none now
      update_state_meta .WEB_CRAWLER now
        { set_current_task s ci t with pdf_document := some { url := first.url } }

/-- WebCrawlerAgent.execute (dev.py lines 37-82). -/
def WebCrawlerAgent.execute (o : CrawlOutcome) (now : Nat) (s : AgentState) : AgentState :=
  match s.current_task with
  | none => s
  | some ci =>
      let cur := s.task_history.getD ci default
      if cur.task_type ≠ TaskType.CRAWL_WEB then s
      else
        let url := cur.input_data.url.getD s.target_url
        if lower_ends_with_pdf url then
          crawl_finish now s ci cur url [{ url := url, text := "Direct PDF URL" }]
        else
          match o with
          | .raised msg =>
              log_error .WEB_CRAWLER s ("Web crawling failed: " ++ msg) [] now
          | .toolFail err =>
              let t := complete_task cur {} (some err) now
              update_state_meta .WEB_CRAWLER now (set_current_task s ci t)
          | .toolOk links => crawl_finish now s ci cur url links

/-- Outcome of the tool calls inside PDFHandlerAgent.execute
(download_pdf and get_pdf_info). -/
inductive PdfOutcome
  | raised (msg : String)
  | downloadFail (err : String)
  | infoFail (local_path : String) (err : String)
  | ok (local_path : String) (file_size num_pages : Nat)

/-- PDFHandlerAgent.execute (dev.py lines 97-142).  Its failure paths
only log errors; the task is completed only on full success. -/
def PDFHandlerAgent.execute (o : PdfOutcome) (now : Nat) (s : AgentState) : AgentState :=
  match s.current_task with
  | none => s
  | some ci =>
      let cur := s.task_history.getD ci default
      if cur.task_type ≠ TaskType.DOWNLOAD_PDF then s
      else
        match s.pdf_document with
        | none => log_error .PDF_HANDLER s "No PDF URL found in state" [] now
        | some pdfdoc =>
            match o with
            | .raised msg =>
                log_error .PDF_HANDLER s ("PDF handling failed: " ++ msg) [] now
            | .downloadFail err => log_error .PDF_HANDLER s err [] now
            | .infoFail _ err => log_error .PDF_HANDLER s err [] now
            | .ok local_path fsize npages =>
                let pdf_doc : PDFDocument := { url := pdfdoc.url, local_path := some local_path }
                let t := complete_task cur
                  { local_path := some local_path, file_size := some fsize,
                    page_count := some npages } none now
                update_state_meta .PDF_HANDLER now
                  { set_current_task s ci t with
                      pdf_document := some pdf_doc, pdf_local_path := some local_path }

/-- Outcome of the tool calls inside ContentExtractorAgent.execute
(pdf_extractor_tool.extract_all and the embedding/vector-db calls; an
exception in the latter is covered by raised). -/
inductive ExtractOutcome
  | raised (msg : String)
  | extractFail (err : String)
  | ok (kw : ExtractedKeywords) (full_text : String)

/-- ContentExtractorAgent.execute (dev.py lines 159-223).  On success
the task is completed and the keywords stored; afterwards the code sets
pdf_document.content in place, which raises AttributeError when
pdf_document is None — the except block then logs on the
already-updated state. -/
def ContentExtractorAgent.execute (o : ExtractOutcome) (now : Nat) (s : AgentState) : AgentState :=
  match s.current_task with
  | none => s
  | some ci =>
      let cur := s.task_history.getD ci default
      if cur.task_type ≠ TaskType.EXTRACT_CONTENT then s
      else
        match s.pdf_local_path with
        | none => log_error .CONTENT_EXTRACTOR s "No PDF path found in state" [] now
        | some _ =>
            match o with
            | .raised msg =>
                log_error .CONTENT_EXTRACTOR s ("Content extraction failed: " ++ msg) [] now
            | .extractFail err => log_error .CONTENT_EXTRACTOR s err [] now
            | .ok kw full_text =>
                let collection := s.project_name.replace " " "_"
                let t := complete_task cur
                  { keywords_count := some kw.main_keywords.length,
                    phrases_count := some kw.key_phrases.length,
                    text_length := some full_text.length } none now
                let s1 := update_state_meta .CONTENT_EXTRACTOR now
                  { set_current_task s ci t with
                      extracted_keywords := some kw,
                      vector_db_collection := some collection,
                      embedded_documents := ["main_document"] }
                match s.pdf_document with
                | some d => { s1 with pdf_document := some { d with content := some full_text } }
                | none =>
                    log_error .CONTENT_EXTRACTOR s1
                      ("Content extraction failed: " ++
                       "'NoneType' object has no attribute 'content'") [] now

/-- Substring containment (Python's `pat in s`), for nonempty patterns. -/
def contains_str (s pat : String) : Bool :=
  (s.splitOn pat).length > 1

/-- The per-query collection loop of SearchAgent.execute (res.py lines
59-73): each query's tool result extends the collected list when
successful; after every query the loop stops once at least 30 results
are collected.  A tool exception aborts the loop with the partial
results and only a logger warning, which is the same as the remaining
queries returning nothing. -/
def collect_search_results : List (Option (List SearchResult)) → List SearchResult →
    List SearchResult
  | [], acc => acc
  | r? :: rest, acc =>
      let acc' := match r? with
        | some rs => acc ++ rs
        | none => acc
      if acc'.length ≥ 30 then acc' else collect_search_results rest acc'

/-- Slash count of a url (Python url.count('/')). -/
def count_slashes (url : String) : Nat :=
  url.toList.count '/'

/-- The article-path indicators of the validation step (res.py line 100). -/
def article_indicators : List String :=
  ["-", "tin-tuc", "bai-viet", "news", "article", ".htm"]

/-- Step 1 of SearchAgent.execute (res.py lines 85-104): keep results
with valid http(s) urls, drop duplicates, and drop homepage-like urls
without an article indicator. -/
def validate_results : List SearchResult → List String → List SearchResult
  | [], _ => []
  | r :: rs, seen =>
      let url := r.url
      if ! (url.startsWith "http://" || url.startsWith "https://") then
        validate_results rs seen
      else if seen.contains url then
        validate_results rs seen
      else if (url.endsWith "/" || count_slashes url ≤ 3)
              && ! article_indicators.any (fun ind => contains_str url.toLower ind) then
        validate_results rs seen
      else r :: validate_results rs (url :: seen)

/-- The opinion-indicator words of the relevance scoring (res.py line 130). -/
def opinion_words : List String :=
  ["ý kiến", "bình luận", "phản hồi", "góp ý", "thảo luận", "tranh luận", "chuyên gia"]

/-- calculate_relevance_score (res.py lines 115-136): 3 points per
important keyword in the title, else 1 per keyword in the snippet, plus
a one-off bonus of 2 when any opinion word occurs. -/
def calculate_relevance_score (important : List String) (r : SearchResult) : Nat :=
  let title := r.title.toLower
  let snippet := r.snippet.toLower
  let combined := title ++ " " ++ snippet
  let base := important.foldl
    (fun acc kw =>
      if contains_str title kw then acc + 3
      else if contains_str snippet kw then acc + 1
      else acc) 0
  if opinion_words.any (fun w => contains_str combined w) then base + 2 else base

/-- config.TRUSTED_DOMAINS (core/config.py). -/
def trusted_domains : List String :=
  ["vnexpress.net", "tuoitre.vn", "thanhnien.vn", "dantri.com.vn",
   "vietnamnet.vn", "baomoi.com", "tienphong.vn", "mst.gov.vn"]

/-- Stable descending insertion by relevance score (Python's stable
sorted with reverse=True). -/
def insert_by_score (r : SearchResult) : List SearchResult → List SearchResult
  | [] => [r]
  | x :: xs =>
      if x.relevance_score < r.relevance_score then r :: x :: xs
      else x :: insert_by_score r xs

/-- Stable sort, highest relevance score first. -/
def sort_by_score_desc (l : List SearchResult) : List SearchResult :=
  l.foldr insert_by_score []

/-- Outcome of the tool calls inside SearchAgent.execute: query
generation may fail, otherwise the tool produces queries and per-query
search results (none = per-query failure). -/
inductive SearchOutcome
  | raised (msg : String)
  | queryGenFail (err : String)
  | queryGenOk (queries : List String) (perQuery : List (Option (List SearchResult)))

/-- SearchAgent.execute (res.py lines 25-178).  Error paths complete the
current task as FAILED through the aliased object and log the error
(without the update_state bookkeeping); success filters, scores, orders
and truncates the results and stores them in the state. -/
def SearchAgent.execute (o : SearchOutcome) (now : Nat) (s : AgentState) : AgentState :=
  match s.current_task with
  | none => s
  | some ci =>
      let cur := s.task_history.getD ci default
      if cur.task_type ≠ TaskType.SEARCH_OPINIONS then s
      else
        match s.extracted_keywords with
        | none =>
            let t := complete_task cur {} (some "No keywords found in state") now
            log_error .SEARCH_AGENT (set_current_task s ci t) "No keywords found in state" [] now
        | some kw =>
            match o with
            | .raised msg =>
                log_error .SEARCH_AGENT s ("Search failed: " ++ msg) [] now
            | .queryGenFail err =>
                let t := complete_task cur {} (some err) now
                log_error .SEARCH_AGENT (set_current_task s ci t) err [] now
            | .queryGenOk qs perQuery =>
                let search_queries := qs.take 10
                let results :=
                  collect_search_results (perQuery.take (search_queries.take 5).length) []
                if results.isEmpty then
                  let t := complete_task cur {} (some "No search results found from any source") now
                  log_error .SEARCH_AGENT (set_current_task s ci t)
                    "No search results found from any source" [] now
                else
                  let unique := validate_results results []
                  let important :=
                    ((kw.key_phrases.take 5 ++ kw.main_keywords.take 5).filter
                      (fun k => k.length > 3)).map String.toLower
                  let scored := unique.map
                    (fun r => { r with relevance_score := calculate_relevance_score important r })
                  let is_trusted := fun (r : SearchResult) =>
                    trusted_domains.any (fun d => contains_str r.url d)
                  let trusted := sort_by_score_desc (scored.filter is_trusted)
                  let other := sort_by_score_desc (scored.filter (fun r => ! is_trusted r))
                  let final := trusted.take 25 ++ other.take 10
                  let t := complete_task cur
                    { search_queries := search_queries,
                      total_results := some results.length,
                      unique_results := some unique.length,
                      final_results := some final.length } none now
                  update_state_meta .SEARCH_AGENT now
                    { set_current_task s ci t with
                        search_queries := search_queries, search_results := final }

/-- Python set.union with a list of urls: add the urls not yet present. -/
def union_urls (present : List String) (add : List String) : List String :=
  add.foldl (fun acc u => if acc.contains u then acc else acc ++ [u]) present

/-- Outcome of the tool calls inside ArticleAnalyzerAgent.execute
(article_scraper_tool.scrape_multiple_articles; the sentiment labels
come from external TextBlob scoring and ride along with each article). -/
inductive ScrapeOutcome
  | raised (msg : String)
  | toolFail (err : String)
  | toolOk (articles : List Article)

/-- MAX_LOOP of ArticleAnalyzerAgent (res.py line 184). -/
def ArticleAnalyzerAgent.MAX_LOOP : Nat := 5

/-- ArticleAnalyzerAgent.execute (res.py lines 202-297).  When the
state-based loop counter has reached MAX_LOOP the pending task is
completed with an empty result and max_loop_reached, and the scrape
stage is marked done. -/
def ArticleAnalyzerAgent.execute (o : ScrapeOutcome) (now : Nat) (s : AgentState) : AgentState :=
  match s.current_task with
  | none => s
  | some ci =>
      let cur := s.task_history.getD ci default
      if cur.task_type ≠ TaskType.SCRAPE_ARTICLES then s
      else
        let scrape_loop_count := s.scrape_loop_count
        if scrape_loop_count ≥ ArticleAnalyzerAgent.MAX_LOOP then
          let t := complete_task cur
            { articles_count := some 0, urls_scraped := some 0,
              max_loop_reached := true, articles := [] } none now
          update_state_meta .SCRAPER_AGENT now
            { set_current_task s ci t with scrape_articles_done := true }
        else
          let urls_to_scrape := cur.input_data.urls_to_scrape
          if urls_to_scrape.isEmpty then
            let t := complete_task cur
              { articles_count := some 0, urls_scraped := some 0, articles := [] } none now
            update_state_meta .SCRAPER_AGENT now
              { set_current_task s ci t with scrape_articles_done := true }
          else
            match o with
            | .raised msg =>
                let t := complete_task cur {} (some ("Article analysis failed: " ++ msg)) now
                log_error .SCRAPER_AGENT
                  (update_state_meta .SCRAPER_AGENT now
                    { set_current_task s ci t with
                        scrape_articles_done := true,
                        scrape_loop_count := s.scrape_loop_count + 1 })
                  ("Article analysis failed: " ++ msg) [] now
            | .toolFail err =>
                let t := complete_task cur {} (some err) now
                let s1 := update_state_meta .SCRAPER_AGENT now
                  { set_current_task s ci t with scrape_articles_done := true }
                let s2 := log_error .SCRAPER_AGENT s1 err [] now
                { s2 with scrape_loop_count := scrape_loop_count + 1 }
            | .toolOk articles =>
                let scraped_urls := articles.map (fun a => a.url)
                let analyzed := s.analyzed_articles ++ articles
                let t := complete_task cur
                  { articles_count := some articles.length,
                    urls_scraped := some scraped_urls.length,
                    articles := articles } none now
                let s1 := update_state_meta .SCRAPER_AGENT now
                  { set_current_task s ci t with
                      processed_urls := union_urls s.processed_urls scraped_urls,
                      analyzed_articles := analyzed,
                      scrape_articles_done := true }
                { s1 with scrape_loop_count := scrape_loop_count + 1 }

/-- Outcome of the tool calls inside ExporterAgent.execute
(csv_exporter_tool.export_dict_list; embedding/vector-db exceptions are
covered by raised, and a non-raising vector-db failure is only logged,
leaving the success path). -/
inductive ExportOutcome
  | raised (msg : String)
  | csvFail (err : String)
  | csvOk (filepath : String) (file_size : Nat)

/-- MAX_LOOP of ExporterAgent (res.py line 302). -/
def ExporterAgent.MAX_LOOP : Nat := 3

/-- ExporterAgent.execute (res.py lines 312-415).  The loop-counter
check precedes everything and simply returns the state; every executed
path through an EXPORT_DATA task ends with is_complete = true. -/
def ExporterAgent.execute (o : ExportOutcome) (now : Nat) (s : AgentState) : AgentState :=
  if s.export_loop_count ≥ ExporterAgent.MAX_LOOP then s
  else
    match s.current_task with
    | none => s
    | some ci =>
        let cur := s.task_history.getD ci default
        if cur.task_type ≠ TaskType.EXPORT_DATA then s
        else
          let articles := s.analyzed_articles
          if articles.isEmpty then
            let t := complete_task cur {} (some "No articles found to export") now
            let s1 := update_state_meta .SCRAPER_AGENT now
              { set_current_task s ci t with is_complete := true }
            log_error .SCRAPER_AGENT s1 "No articles found to export" [] now
          else
            match o with
            | .raised msg =>
                let t := complete_task cur {} (some ("Export failed: " ++ msg)) now
                let s1 := update_state_meta .SCRAPER_AGENT now
                  { set_current_task s ci t with
                      is_complete := true,
                      export_loop_count := s.export_loop_count + 1 }
                log_error .SCRAPER_AGENT s1 ("Export failed: " ++ msg) [] now
            | .csvFail err =>
                let t := complete_task cur {} (some err) now
                let s1 := update_state_meta .SCRAPER_AGENT now
                  { set_current_task s ci t with is_complete := true }
                log_error .SCRAPER_AGENT s1 err [] now
            | .csvOk filepath fsize =>
                let t := complete_task cur
                  { csv_path := some filepath,
                    articles_count := some articles.length,
                    file_size := some fsize } none now
                update_state_meta .SCRAPER_AGENT now
                  { set_current_task s ci t with
                      csv_output_path := some filepath,
                      is_complete := true,
                      export_loop_count := s.export_loop_count + 1 }

/-- One engine-driven step: the manager or any worker node runs on the
state, with arbitrary tool outcomes and timestamp.  This
over-approximates the LangGraph edge structure of core/auto.py (any
node may run at any time), so invariants proved over it hold for every
schedule the engine can produce. -/
inductive Step : AgentState → AgentState → Prop
  | manager (now : Nat) (s : AgentState) : Step s (ManagerAgent.execute now s)
  | crawler (o : CrawlOutcome) (now : Nat) (s : AgentState) :
      Step s (WebCrawlerAgent.execute o now s)
  | pdfHandler (o : PdfOutcome) (now : Nat) (s : AgentState) :
      Step s (PDFHandlerAgent.execute o now s)
  | extractor (o : ExtractOutcome) (now : Nat) (s : AgentState) :
      Step s (ContentExtractorAgent.execute o now s)
  | search (o : SearchOutcome) (now : Nat) (s : AgentState) :
      Step s (SearchAgent.execute o now s)
  | analyzer (o : ScrapeOutcome) (now : Nat) (s : AgentState) :
      Step s (ArticleAnalyzerAgent.execute o now s)
  | exporter (o : ExportOutcome) (now : Nat) (s : AgentState) :
      Step s (ExporterAgent.execute o now s)

/-- States reachable from an initial state by engine steps. -/
inductive Reachable : AgentState → Prop
  | init (target_url project_name : String) (now : Nat) :
      Reachable (create_initial_state target_url project_name now)
  | step {s s' : AgentState} : Reachable s → Step s s' → Reachable s'

/-- The number of tasks of a type in a history. -/
def count_type (ty : TaskType) (hist : List Task) : Nat :=
  ((hist.map Task.task_type).filter (fun t => t == ty)).length

/-- Whether the in-flight task has the given type (the worker no-op
check: `not current_task or current_task.task_type != ty`). -/
def current_type_is (s : AgentState) (ty : TaskType) : Bool :=
  match s.current_task with
  | none => false
  | some ci => (s.task_history.getD ci default).task_type == ty

/-- A next-task candidate inside _monitor_and_decide is sound: it is
PENDING and its type has no occurrence in the history (the dedup guards
check exactly this before creating). -/
def NextOk (hist : List Task) (nt : Option Task) : Prop :=
  ∀ t, nt = some t →
    t.status = TaskStatus.PENDING ∧ hist.any (fun k => k.task_type == t.task_type) = false

/-- What a worker step can do to the task bookkeeping: it never touches
current_task, and the history is either untouched or has the current
slot overwritten by a complete_task result. -/
def WorkerShape (now : Nat) (s s' : AgentState) : Prop :=
  s'.current_task = s.current_task ∧
  (s'.task_history = s.task_history ∨
    ∃ ci out err, s.current_task = some ci ∧
      s'.task_history =
        s.task_history.set ci (complete_task (s.task_history.getD ci default) out err now))

/-- What a manager step can do to the task bookkeeping: leave it alone,
or append one PENDING task that is either the initial CRAWL_WEB task
(no task in flight yet) or of a type with no occurrence in the history. -/
def ManagerShape (s s' : AgentState) : Prop :=
  (s'.task_history = s.task_history ∧ s'.current_task = s.current_task) ∨
  ∃ t, s'.task_history = s.task_history ++ [t] ∧
       s'.current_task = some s.task_history.length ∧
       t.status = TaskStatus.PENDING ∧
       (s.current_task = none ∨ s.task_history.any (fun k => k.task_type == t.task_type) = false)

/-- The routing invariant: a missing current task means nothing was ever
dispatched, and no task type ever occurs twice in the history. -/
def Inv (s : AgentState) : Prop :=
  (s.current_task = none → s.task_history = []) ∧
  ∀ ty, count_type ty s.task_history ≤ 1

/-- The data the ManagerAgent decision logic reads from the state:
history as (type, status) pairs, the in-flight index, the loop
counters, truthiness of the pdf/keyword prerequisites, the search
result urls, processed urls, the scrape-done flag, emptiness of the
analysed articles, and the completion flag. -/
def RouterAgree (s1 s2 : AgentState) : Prop :=
  s1.task_history.map (fun k => (k.task_type, k.status)) =
    s2.task_history.map (fun k => (k.task_type, k.status)) ∧
  s1.current_task = s2.current_task ∧
  s1.scrape_loop_count = s2.scrape_loop_count ∧
  s1.export_loop_count = s2.export_loop_count ∧
  s1.pdf_document.isSome = s2.pdf_document.isSome ∧
  s1.pdf_local_path.isSome = s2.pdf_local_path.isSome ∧
  s1.extracted_keywords.isSome = s2.extracted_keywords.isSome ∧
  s1.search_results.map SearchResult.url = s2.search_results.map SearchResult.url ∧
  s1.processed_urls = s2.processed_urls ∧
  s1.scrape_articles_done = s2.scrape_articles_done ∧
  s1.analyzed_articles.isEmpty = s2.analyzed_articles.isEmpty ∧
  s1.is_complete = s2.is_complete

/-- The routing decision visible after a manager step: the task types in
the history (a growth records the dispatched type), the completion flag
and the scrape-stage flag. -/
def router_obs (now : Nat) (s : AgentState) : List TaskType × Bool × Bool :=
  ((ManagerAgent.execute now s).task_history.map Task.task_type,
   (ManagerAgent.execute now s).is_complete,
   (ManagerAgent.execute now s).scrape_articles_done)

/-- A generic error-log entry used by the concrete counterexample states. -/
def errEntry : ErrorEntry := { agent := .MANAGER, message := "m", timestamp := 0 }

/-- A state with six recorded errors and is_complete still false. -/
def sixErrorState : AgentState :=
  { errors := [errEntry, errEntry, errEntry, errEntry, errEntry, errEntry] }

/-- A completed CRAWL_WEB task (fixture). -/
def tCrawlDone : Task := { task_id := "c", task_type := .CRAWL_WEB, status := .COMPLETED }

/-- A completed DOWNLOAD_PDF task (fixture). -/
def tDownloadDone : Task := { task_id := "d", task_type := .DOWNLOAD_PDF, status := .COMPLETED }

/-- A completed EXTRACT_CONTENT task (fixture). -/
def tExtractDone : Task := { task_id := "e", task_type := .EXTRACT_CONTENT, status := .COMPLETED }

/-- A completed SEARCH_OPINIONS task (fixture). -/
def tSearchDone : Task := { task_id := "s", task_type := .SEARCH_OPINIONS, status := .COMPLETED }

/-- A pending CRAWL_WEB task (fixture). -/
def tCrawlPending : Task := { task_id := "t", task_type := .CRAWL_WEB, status := .PENDING }

/-- A pending EXPORT_DATA task (fixture). -/
def tExportPending : Task := { task_id := "x", task_type := .EXPORT_DATA, status := .PENDING }

/-- A pending SCRAPE_ARTICLES task (fixture). -/
def tScrapePending : Task := { task_id := "a", task_type := .SCRAPE_ARTICLES, status := .PENDING }

/-- A state in which EXTRACT_CONTENT just completed (after the crawl and
download stages) but no keywords were stored. -/
def noKeywordState : AgentState :=
  { target_url := "http://x", project_name := "p", current_task := some 2,
    task_history := [tCrawlDone, tDownloadDone, tExtractDone] }

/-- A state whose SEARCH_OPINIONS stage completed with one search result. -/
def oneResultState : AgentState :=
  { target_url := "u", project_name := "p", current_task := some 0,
    task_history := [tSearchDone],
    search_results := [{ url := "https://vnexpress.net/a-b" }] }

/-- The same state with no search results (identical history, counters). -/
def noResultState : AgentState :=
  { target_url := "u", project_name := "p", current_task := some 0,
    task_history := [tSearchDone] }

/-- The one-result state with different unread fields (errors, warnings,
csv_output_path, timestamps): the Router reads none of these. -/
def oneResultStateB : AgentState :=
  { oneResultState with
      warnings := ["w"], errors := [{ agent := .MANAGER, message := "m", timestamp := 0 }],
      csv_output_path := some "x.csv", started_at := 3, last_updated := 4 }

/-- A state with a pending CRAWL_WEB task in flight. -/
def pendingCrawlState : AgentState :=
  { target_url := "http://a", current_task := some 0, task_history := [tCrawlPending] }

/-- A state with a pending EXPORT_DATA task whose loop counter has
reached the exporter's MAX_LOOP, with articles available. -/
def exportAtCapState : AgentState :=
  { current_task := some 0, task_history := [tExportPending], export_loop_count := 3,
    analyzed_articles := [{ url := "a" }] }

/-- A state with a pending SCRAPE_ARTICLES task whose loop counter has
reached the analyzer's MAX_LOOP. -/
def scrapeAtCapState : AgentState :=
  { current_task := some 0, task_history := [tScrapePending], scrape_loop_count := 5 }

/-- A state with a pending EXPORT_DATA task below the loop cap and one
analysed article. -/
def exportReadyState : AgentState :=
  { current_task := some 0, task_history := [tExportPending],
    analyzed_articles := [{ url := "a" }] }

/-- The initial state of a concrete run. -/
def initState : AgentState := create_initial_state "u" "p" 0

/-- The concrete state after the first manager step: one pending
CRAWL_WEB task. -/
def afterStartState : AgentState := ManagerAgent.execute 1 initState

theorem log_error_current_task (r : AgentRole) (s : AgentState) (m : String)
    (d : List (String × String)) (n : Nat) :
    (log_error r s m d n).current_task = s.current_task := rfl

theorem log_error_task_history (r : AgentRole) (s : AgentState) (m : String)
    (d : List (String × String)) (n : Nat) :
    (log_error r s m d n).task_history = s.task_history := rfl

theorem update_state_meta_current_task (r : AgentRole) (n : Nat) (s : AgentState) :
    (update_state_meta r n s).current_task = s.current_task := rfl

theorem update_state_meta_task_history (r : AgentRole) (n : Nat) (s : AgentState) :
    (update_state_meta r n s).task_history = s.task_history := rfl

theorem set_current_task_current_task (s : AgentState) (ci : Nat) (t : Task) :
    (set_current_task s ci t).current_task = s.current_task := rfl

theorem set_current_task_task_history (s : AgentState) (ci : Nat) (t : Task) :
    (set_current_task s ci t).task_history = s.task_history.set ci t := rfl

theorem complete_task_task_type (t : Task) (o : OutputData) (e : Option String) (n : Nat) :
    (complete_task t o e n).task_type = t.task_type := by
  cases e <;> rfl

theorem complete_task_status_terminal (t : Task) (o : OutputData) (e : Option String) (n : Nat) :
    (complete_task t o e n).status = TaskStatus.COMPLETED ∨
      (complete_task t o e n).status = TaskStatus.FAILED := by
  cases e with
  | none => exact Or.inl rfl
  | some _ => exact Or.inr rfl

theorem complete_task_completed_at (t : Task) (o : OutputData) (e : Option String) (n : Nat) :
    (complete_task t o e n).completed_at = some n := by
  cases e <;> rfl

theorem length_filter_imp {α : Type} (p q : α → Bool) (l : List α)
    (h : ∀ a, p a = true → q a = true) :
    (l.filter p).length ≤ (l.filter q).length := by
  induction l with
  | nil => simp
  | cons a l ih =>
      by_cases hp : p a = true
      · rw [List.filter_cons_of_pos hp, List.filter_cons_of_pos (h a hp)]
        simpa using ih
      · rw [List.filter_cons_of_neg (by simpa using hp)]
        by_cases hq : q a = true
        · rw [List.filter_cons_of_pos hq]
          exact le_trans ih (by simp)
        · rw [List.filter_cons_of_neg (by simpa using hq)]
          exact ih

theorem filter_type_length_eq (ty : TaskType) (hist : List Task) :
    (hist.filter (fun k => k.task_type == ty)).length = count_type ty hist := by
  induction hist with
  | nil => rfl
  | cons a l ih =>
      unfold count_type at *
      simp only [List.map_cons]
      simp only [List.filter_cons]
      by_cases h : (a.task_type == ty) = true <;> simp [h, ih]

theorem map_type_set (l : List Task) (i : Nat) (t' : Task)
    (ht : t'.task_type = (l.getD i default).task_type) :
    (l.set i t').map Task.task_type = l.map Task.task_type := by
  induction l generalizing i with
  | nil => simp
  | cons a l ih =>
      cases i with
      | zero =>
          simp only [List.getD_cons_zero] at ht
          simp [ht]
      | succ n =>
          simp only [List.getD_cons_succ] at ht
          simp only [List.set_cons_succ, List.map_cons]
          rw [ih n ht]

theorem getD_set_cases (l : List Task) (i j : Nat) (x d : Task) :
    (l.set i x).getD j d = l.getD j d ∨ (l.set i x).getD j d = x := by
  induction l generalizing i j with
  | nil => exact Or.inl rfl
  | cons a l ih =>
      cases i with
      | zero =>
          cases j with
          | zero => exact Or.inr rfl
          | succ m => exact Or.inl rfl
      | succ n =>
          cases j with
          | zero => exact Or.inl rfl
          | succ m => exact ih n m

theorem getD_append_cases (l : List Task) (t d : Task) (j : Nat) :
    (l ++ [t]).getD j d = l.getD j d ∨
      ((l ++ [t]).getD j d = t ∧ l.getD j d = d) := by
  induction l generalizing j with
  | nil =>
      cases j with
      | zero => exact Or.inr ⟨rfl, rfl⟩
      | succ m => exact Or.inl (by cases m <;> rfl)
  | cons a l ih =>
      cases j with
      | zero => exact Or.inl rfl
      | succ m => exact ih m

theorem webCrawler_shape (o : CrawlOutcome) (now : Nat) (s : AgentState) :
    WorkerShape now s (WebCrawlerAgent.execute o now s) := by
  unfold WorkerShape WebCrawlerAgent.execute
  cases hc : s.current_task with
  | none => exact ⟨hc, Or.inl rfl⟩
  | some ci =>
      simp only
      split
      · exact ⟨hc, Or.inl rfl⟩
      · split
        · exact ⟨hc, Or.inr ⟨ci, _, none, rfl, rfl⟩⟩
        · cases o with
          | raised msg => exact ⟨hc, Or.inl rfl⟩
          | toolFail err => exact ⟨hc, Or.inr ⟨ci, {}, some err, rfl, rfl⟩⟩
          | toolOk links =>
              cases links with
              | nil => exact ⟨hc, Or.inl rfl⟩
              | cons f rest => exact ⟨hc, Or.inr ⟨ci, _, none, rfl, rfl⟩⟩

theorem pdfHandler_shape (o : PdfOutcome) (now : Nat) (s : AgentState) :
    WorkerShape now s (PDFHandlerAgent.execute o now s) := by
  unfold WorkerShape PDFHandlerAgent.execute
  cases hc : s.current_task with
  | none => exact ⟨hc, Or.inl rfl⟩
  | some ci =>
      simp only
      split
      · exact ⟨hc, Or.inl rfl⟩
      · cases hd : s.pdf_document with
        | none => exact ⟨hc, Or.inl rfl⟩
        | some pdfdoc =>
            cases o with
            | raised msg => exact ⟨hc, Or.inl rfl⟩
            | downloadFail err => exact ⟨hc, Or.inl rfl⟩
            | infoFail lp err => exact ⟨hc, Or.inl rfl⟩
            | ok lp fs np => exact ⟨hc, Or.inr ⟨ci, _, none, rfl, rfl⟩⟩

theorem contentExtractor_shape (o : ExtractOutcome) (now : Nat) (s : AgentState) :
    WorkerShape now s (ContentExtractorAgent.execute o now s) := by
  unfold WorkerShape ContentExtractorAgent.execute
  cases hc : s.current_task with
  | none => exact ⟨hc, Or.inl rfl⟩
  | some ci =>
      simp only
      split
      · exact ⟨hc, Or.inl rfl⟩
      · cases hp : s.pdf_local_path with
        | none => exact ⟨hc, Or.inl rfl⟩
        | some _ =>
            cases o with
            | raised msg => exact ⟨hc, Or.inl rfl⟩
            | extractFail err => exact ⟨hc, Or.inl rfl⟩
            | ok kw full_text =>
                cases hd : s.pdf_document with
                | some d => exact ⟨hc, Or.inr ⟨ci, _, none, rfl, rfl⟩⟩
                | none => exact ⟨hc, Or.inr ⟨ci, _, none, rfl, rfl⟩⟩

theorem search_shape (o : SearchOutcome) (now : Nat) (s : AgentState) :
    WorkerShape now s (SearchAgent.execute o now s) := by
  unfold WorkerShape SearchAgent.execute
  cases hc : s.current_task with
  | none => exact ⟨hc, Or.inl rfl⟩
  | some ci =>
      simp only
      split
      · exact ⟨hc, Or.inl rfl⟩
      · cases hk : s.extracted_keywords with
        | none => exact ⟨hc, Or.inr ⟨ci, _, _, rfl, rfl⟩⟩
        | some kw =>
            cases o with
            | raised msg => exact ⟨hc, Or.inl rfl⟩
            | queryGenFail err => exact ⟨hc, Or.inr ⟨ci, _, _, rfl, rfl⟩⟩
            | queryGenOk qs perQuery =>
                dsimp only
                split
                · exact ⟨hc, Or.inr ⟨ci, _, _, rfl, rfl⟩⟩
                · exact ⟨hc, Or.inr ⟨ci, _, none, rfl, rfl⟩⟩

theorem articleAnalyzer_shape (o : ScrapeOutcome) (now : Nat) (s : AgentState) :
    WorkerShape now s (ArticleAnalyzerAgent.execute o now s) := by
  unfold WorkerShape ArticleAnalyzerAgent.execute
  cases hc : s.current_task with
  | none => exact ⟨hc, Or.inl rfl⟩
  | some ci =>
      simp only
      split
      · exact ⟨hc, Or.inl rfl⟩
      · split
        · exact ⟨hc, Or.inr ⟨ci, _, none, rfl, rfl⟩⟩
        · split
          · exact ⟨hc, Or.inr ⟨ci, _, none, rfl, rfl⟩⟩
          · cases o with
            | raised msg => exact ⟨hc, Or.inr ⟨ci, _, _, rfl, rfl⟩⟩
            | toolFail err => exact ⟨hc, Or.inr ⟨ci, _, _, rfl, rfl⟩⟩
            | toolOk articles => exact ⟨hc, Or.inr ⟨ci, _, none, rfl, rfl⟩⟩

theorem exporter_shape (o : ExportOutcome) (now : Nat) (s : AgentState) :
    WorkerShape now s (ExporterAgent.execute o now s) := by
  unfold WorkerShape ExporterAgent.execute
  split
  · exact ⟨rfl, Or.inl rfl⟩
  · cases hc : s.current_task with
    | none => exact ⟨hc, Or.inl rfl⟩
    | some ci =>
        simp only
        split
        · exact ⟨hc, Or.inl rfl⟩
        · split
          · exact ⟨hc, Or.inr ⟨ci, _, _, rfl, rfl⟩⟩
          · cases o with
            | raised msg => exact ⟨hc, Or.inr ⟨ci, _, _, rfl, rfl⟩⟩
            | csvFail err => exact ⟨hc, Or.inr ⟨ci, _, _, rfl, rfl⟩⟩
            | csvOk fp fs => exact ⟨hc, Or.inr ⟨ci, _, none, rfl, rfl⟩⟩

theorem dispatch_next_shape (now : Nat) (s0 s : AgentState) (nt : Option Task)
    (hh : s.task_history = s0.task_history) (hcur : s.current_task = s0.current_task)
    (hok : NextOk s0.task_history nt) :
    ManagerShape s0 (dispatch_next now s nt) := by
  cases nt with
  | none => exact Or.inl ⟨hh, hcur⟩
  | some t =>
      rcases hok t rfl with ⟨hst, hany⟩
      refine Or.inr ⟨t, ?_, ?_, hst, Or.inr hany⟩
      · simp [dispatch_next, update_state_meta, hh]
      · simp [dispatch_next, update_state_meta, hh]

theorem chain_next_ok (now : Nat) (hist : List Task) (cur : Task)
    (p : Option PDFDocument) (q : Option String) (k : Option ExtractedKeywords) :
    NextOk hist (chain_next now hist cur p q k) := by
  intro t ht
  unfold chain_next at ht
  split at ht
  · split at ht
    · rename_i hg
      rw [Bool.and_eq_true, Bool.not_eq_true'] at hg
      injection ht with h
      subst h
      refine ⟨rfl, ?_⟩
      unfold task_already_created at hg
      exact (Bool.or_eq_false_iff.mp hg.1).1
    · exact absurd ht (by simp)
  · split at ht
    · split at ht
      · rename_i hg
        rw [Bool.and_eq_true, Bool.not_eq_true'] at hg
        injection ht with h
        subst h
        refine ⟨rfl, ?_⟩
        unfold task_already_created at hg
        exact (Bool.or_eq_false_iff.mp hg.1).1
      · exact absurd ht (by simp)
    · split at ht
      · split at ht
        · rename_i hg
          rw [Bool.and_eq_true, Bool.not_eq_true'] at hg
          injection ht with h
          subst h
          refine ⟨rfl, ?_⟩
          unfold task_already_created at hg
          exact (Bool.or_eq_false_iff.mp hg.1).1
        · exact absurd ht (by simp)
      · exact absurd ht (by simp)

theorem scrape_next_ok (now : Nat) (hist : List Task) (cur : Task) (done : Bool)
    (results : List SearchResult) (processed : List String) (prev : Option Task)
    (hprev : NextOk hist prev) :
    NextOk hist (scrape_next now hist cur done results processed prev).1 := by
  intro t ht
  unfold scrape_next at ht
  split at ht
  · rename_i hg
    rw [Bool.and_eq_true, Bool.not_eq_true'] at hg
    split at ht
    · dsimp only at ht
      split at ht
      · dsimp only at ht
        injection ht with h
        subst h
        exact ⟨rfl, (Bool.or_eq_false_iff.mp hg.2).1⟩
      · exact hprev t ht
    · exact hprev t ht
  · exact hprev t ht

theorem manager_shape (now : Nat) (s : AgentState) :
    ManagerShape s (ManagerAgent.execute now s) := by
  unfold ManagerAgent.execute
  cases hc : s.current_task with
  | none =>
      exact Or.inr ⟨_, rfl, rfl, rfl, Or.inl hc⟩
  | some ci =>
      unfold ManagerAgent.monitor_and_decide
      rw [hc]
      dsimp only
      split
      · split
        · split
          · rename_i h1 h2 h3
            refine dispatch_next_shape now s _ _ rfl hc.symm ?_
            intro t ht
            injection ht with h
            subst h
            rw [Bool.not_eq_true'] at h2
            unfold task_already_created at h2
            exact ⟨rfl, (Bool.or_eq_false_iff.mp h2).1⟩
          · exact dispatch_next_shape now s _ _ rfl hc.symm
              (scrape_next_ok _ _ _ _ _ _ _ (chain_next_ok _ _ _ _ _ _))
        · exact dispatch_next_shape now s _ _ rfl hc.symm
            (scrape_next_ok _ _ _ _ _ _ _ (chain_next_ok _ _ _ _ _ _))
      · split
        · exact Or.inl ⟨rfl, hc.symm⟩
        · exact dispatch_next_shape now s _ _ rfl hc.symm
            (scrape_next_ok _ _ _ _ _ _ _ (chain_next_ok _ _ _ _ _ _))

theorem count_type_append (ty : TaskType) (hist : List Task) (t : Task) :
    count_type ty (hist ++ [t]) =
      count_type ty hist + (if t.task_type == ty then 1 else 0) := by
  unfold count_type
  rw [List.map_append, List.filter_append, List.length_append]
  simp only [List.map_cons, List.map_nil, List.filter_cons, List.filter_nil]
  split <;> simp

theorem workerShape_count (now : Nat) (s s' : AgentState) (h : WorkerShape now s s')
    (ty : TaskType) :
    count_type ty s'.task_history = count_type ty s.task_history := by
  rcases h.2 with h2 | ⟨ci, out, err, hci, h2⟩
  · rw [h2]
  · rw [h2]
    unfold count_type
    rw [map_type_set _ _ _ (complete_task_task_type _ out err now)]

theorem step_shape (s s' : AgentState) (h : Step s s') :
    ManagerShape s s' ∨ ∃ now, WorkerShape now s s' := by
  cases h with
  | manager now s => exact Or.inl (manager_shape now s)
  | crawler o now s => exact Or.inr ⟨now, webCrawler_shape o now s⟩
  | pdfHandler o now s => exact Or.inr ⟨now, pdfHandler_shape o now s⟩
  | extractor o now s => exact Or.inr ⟨now, contentExtractor_shape o now s⟩
  | search o now s => exact Or.inr ⟨now, search_shape o now s⟩
  | analyzer o now s => exact Or.inr ⟨now, articleAnalyzer_shape o now s⟩
  | exporter o now s => exact Or.inr ⟨now, exporter_shape o now s⟩

theorem inv_preserved (s s' : AgentState) (hs : Step s s') (hi : Inv s) : Inv s' := by
  rcases step_shape s s' hs with hm | ⟨now, hw⟩
  · rcases hm with ⟨hh, hcur⟩ | ⟨t, hh, hcur, hst, hguard⟩
    · refine ⟨fun hn => ?_, fun ty => hh ▸ hi.2 ty⟩
      rw [hh]
      exact hi.1 (hcur ▸ hn)
    · constructor
      · intro hn
        rw [hcur] at hn
        exact absurd hn (by simp)
      · intro ty
        rw [hh, count_type_append]
        rcases hguard with hnone | hany
        · have hnil := hi.1 hnone
          rw [hnil]
          simp [count_type]
          split <;> simp
        · by_cases hty : (t.task_type == ty) = true
          · have : count_type ty s.task_history = 0 := by
              unfold count_type
              rw [List.length_eq_zero]
              rw [List.filter_eq_nil_iff]
              intro a ha
              rcases List.mem_map.mp ha with ⟨k, hk, hak⟩
              have := List.any_eq_false.mp hany k hk
              simp only [beq_iff_eq] at this hty ⊢
              rw [← hak, ← hty]
              exact fun hkk => this (by simp [hkk])
            rw [this, hty]
            simp
          · rw [if_neg hty]
            simpa using hi.2 ty
  · constructor
    · intro hn
      rw [hw.1] at hn
      rcases hw.2 with h2 | ⟨ci, out, err, hci, h2⟩
      · rw [h2]
        exact hi.1 hn
      · rw [hn] at hci
        exact absurd hci (by simp)
    · intro ty
      rw [workerShape_count now s s' hw ty]
      exact hi.2 ty

theorem inv_init (target_url project_name : String) (now : Nat) :
    Inv (create_initial_state target_url project_name now) := by
  constructor
  · intro _
    rfl
  · intro ty
    simp [count_type, create_initial_state]

theorem reachable_inv (s : AgentState) (h : Reachable s) : Inv s := by
  induction h with
  | init u p n => exact inv_init u p n
  | step hr hs ih => exact inv_preserved _ _ hs ih

theorem step_status_change (s s' : AgentState) (h : Step s s') (j : Nat) :
    (s'.task_history.getD j default).status = (s.task_history.getD j default).status ∨
    (((s'.task_history.getD j default).status = TaskStatus.COMPLETED ∨
      (s'.task_history.getD j default).status = TaskStatus.FAILED) ∧
      (s'.task_history.getD j default).completed_at.isSome = true) := by
  rcases step_shape s s' h with hm | ⟨now, hw⟩
  · rcases hm with ⟨hh, _⟩ | ⟨t, hh, _, hst, _⟩
    · rw [hh]
      exact Or.inl rfl
    · rw [hh]
      rcases getD_append_cases s.task_history t default j with he | ⟨he, hd⟩
      · rw [he]
        exact Or.inl rfl
      · rw [he, hd, hst]
        exact Or.inl rfl
  · rcases hw.2 with h2 | ⟨ci, out, err, hci, h2⟩
    · rw [h2]
      exact Or.inl rfl
    · rw [h2]
      rcases getD_set_cases s.task_history ci j
          (complete_task (s.task_history.getD ci default) out err now) default with he | he
      · rw [he]
        exact Or.inl rfl
      · rw [he]
        refine Or.inr ⟨complete_task_status_terminal _ out err now, ?_⟩
        rw [complete_task_completed_at]
        rfl

theorem getD_set_self (l : List Task) (i : Nat) (x d : Task) (hi : i < l.length) :
    (l.set i x).getD i d = x := by
  induction l generalizing i with
  | nil => exact absurd hi (by simp)
  | cons a l ih =>
      cases i with
      | zero => rfl
      | succ n => exact ih n (by simpa using hi)

/-- C1 counterexample: a state with six recorded errors and is_complete
still false.  The engine's should_continue routes to END and
BaseAgent.should_continue reports stop, but nothing sets is_complete:
the final state still has is_complete = false, contradicting the
claim that the next Engine step sets it to true. -/
theorem C1_counterexample :
    should_continue sixErrorState = EngineRoute.toEnd ∧
    sixErrorState.is_complete = false ∧
    BaseAgent.should_continue sixErrorState = false := by
  refine ⟨by decide, rfl, by decide⟩

/-- C1 (amended): once more than ERROR_THRESHOLD = 5 errors are
recorded, should_continue (core/auto.py) routes to END so no further
dispatch occurs, and BaseAgent.should_continue answers false; both only
report — is_complete is left unchanged rather than being set to true. -/
theorem C1_errors_halt_dispatch (s : AgentState) (h : s.errors.length > 5) :
    should_continue s = EngineRoute.toEnd ∧ BaseAgent.should_continue s = false := by
  constructor
  · unfold should_continue
    rw [if_pos]
    simp [h]
  · unfold BaseAgent.should_continue
    simp [h]

/-- C1 witness: the amended theorem applied to the six-error state. -/
theorem C1_witness :
    sixErrorState.errors.length > 5 ∧
    (should_continue sixErrorState = EngineRoute.toEnd ∧
     BaseAgent.should_continue sixErrorState = false) :=
  ⟨by decide, C1_errors_halt_dispatch sixErrorState (by decide)⟩

/-- C2 counterexample: an EXPORT_DATA task pending with
export_loop_count at the exporter's MAX_LOOP = 3.  Executing the
ExporterAgent returns the state unchanged: the task stays PENDING, no
empty result with a max_loop_reached flag is attached, and no stage is
marked done — contrary to the claim's short-circuit behaviour. -/
theorem C2_counterexample :
    ExporterAgent.execute (ExportOutcome.csvOk "f.csv" 10) 1 exportAtCapState
      = exportAtCapState ∧
    (exportAtCapState.task_history.getD 0 default).status = TaskStatus.PENDING ∧
    (exportAtCapState.task_history.getD 0 default).output_data.max_loop_reached = false ∧
    exportAtCapState.is_complete = false := by
  refine ⟨by rfl, rfl, rfl, rfl⟩

/-- C2 (amended): the loop guard behaves as the claim states only for
SCRAPE_ARTICLES: with scrape_loop_count at MAX_LOOP = 5 the analyzer
completes the pending task with an empty result carrying
max_loop_reached and marks the scrape stage done.  For EXPORT_DATA with
export_loop_count at MAX_LOOP = 3 the exporter instead returns the
state unchanged, leaving the task pending. -/
theorem C2_loop_guard (s : AgentState) (ci : Nat) (o : ScrapeOutcome) (now : Nat)
    (hc : s.current_task = some ci) (hlt : ci < s.task_history.length)
    (hty : (s.task_history.getD ci default).task_type = TaskType.SCRAPE_ARTICLES)
    (hloop : s.scrape_loop_count ≥ ArticleAnalyzerAgent.MAX_LOOP)
    (s2 : AgentState) (o' : ExportOutcome)
    (hexp : s2.export_loop_count ≥ ExporterAgent.MAX_LOOP) :
    (((ArticleAnalyzerAgent.execute o now s).task_history.getD ci default).status
        = TaskStatus.COMPLETED ∧
     ((ArticleAnalyzerAgent.execute o now s).task_history.getD ci
        default).output_data.max_loop_reached = true ∧
     ((ArticleAnalyzerAgent.execute o now s).task_history.getD ci
        default).output_data.articles = [] ∧
     (ArticleAnalyzerAgent.execute o now s).scrape_articles_done = true) ∧
    ExporterAgent.execute o' now s2 = s2 := by
  constructor
  · have hstep : ArticleAnalyzerAgent.execute o now s =
        update_state_meta .SCRAPER_AGENT now
          { set_current_task s ci
              (complete_task (s.task_history.getD ci default)
                { articles_count := some 0, urls_scraped := some 0,
                  max_loop_reached := true, articles := [] } none now) with
            scrape_articles_done := true } := by
      unfold ArticleAnalyzerAgent.execute
      rw [hc]
      dsimp only
      rw [if_neg (not_ne_iff.mpr hty), if_pos hloop]
    rw [hstep]
    unfold update_state_meta set_current_task
    dsimp only
    rw [getD_set_self _ _ _ _ hlt]
    exact ⟨rfl, rfl, rfl, rfl⟩
  · unfold ExporterAgent.execute
    rw [if_pos hexp]

/-- C2 witness: the amended theorem applied to the concrete
at-the-cap scrape and export states. -/
theorem C2_witness :
    (scrapeAtCapState.current_task = some 0 ∧
     0 < scrapeAtCapState.task_history.length ∧
     (scrapeAtCapState.task_history.getD 0 default).task_type = TaskType.SCRAPE_ARTICLES ∧
     scrapeAtCapState.scrape_loop_count ≥ ArticleAnalyzerAgent.MAX_LOOP ∧
     exportAtCapState.export_loop_count ≥ ExporterAgent.MAX_LOOP) ∧
    ((((ArticleAnalyzerAgent.execute (ScrapeOutcome.toolOk []) 4
          scrapeAtCapState).task_history.getD 0 default).status = TaskStatus.COMPLETED ∧
      (((ArticleAnalyzerAgent.execute (ScrapeOutcome.toolOk []) 4
          scrapeAtCapState).task_history.getD 0
          default).output_data.max_loop_reached = true) ∧
      (((ArticleAnalyzerAgent.execute (ScrapeOutcome.toolOk []) 4
          scrapeAtCapState).task_history.getD 0 default).output_data.articles = []) ∧
      (ArticleAnalyzerAgent.execute (ScrapeOutcome.toolOk []) 4
          scrapeAtCapState).scrape_articles_done = true) ∧
     ExporterAgent.execute (ExportOutcome.csvOk "f.csv" 10) 4 exportAtCapState
        = exportAtCapState) :=
  ⟨⟨rfl, by decide, rfl, by decide, by decide⟩,
   C2_loop_guard scrapeAtCapState 0 (ScrapeOutcome.toolOk []) 4 rfl (by decide) rfl
     (by decide) exportAtCapState (ExportOutcome.csvOk "f.csv" 10) (by decide)⟩

/-- C6 counterexample: with a pending CRAWL_WEB task, an exception
inside the crawler appends an error entry but leaves the task PENDING
with no error_message (it is never marked FAILED); conversely a failed
find_pdf_links tool call marks the task FAILED but appends nothing to
state.errors.  The claim requires both effects on every error path. -/
theorem C6_counterexample :
    (WebCrawlerAgent.execute (CrawlOutcome.raised "boom") 2 pendingCrawlState).errors.length
        = 1 ∧
    ((WebCrawlerAgent.execute (CrawlOutcome.raised "boom") 2
        pendingCrawlState).task_history.getD 0 default).status = TaskStatus.PENDING ∧
    ((WebCrawlerAgent.execute (CrawlOutcome.raised "boom") 2
        pendingCrawlState).task_history.getD 0 default).error_message = none ∧
    (WebCrawlerAgent.execute (CrawlOutcome.toolFail "no net") 1
        pendingCrawlState).errors.length = 0 ∧
    ((WebCrawlerAgent.execute (CrawlOutcome.toolFail "no net") 1
        pendingCrawlState).task_history.getD 0 default).status = TaskStatus.FAILED := by
  refine ⟨by decide, by decide, by decide, by decide, by decide⟩

/-- C6 (amended): what does hold uniformly is the log_error contract:
every call appends exactly one entry carrying the worker identity, the
message, the timestamp and the structured details, and touches neither
the task history nor the in-flight task.  Marking the Task FAILED is a
separate, not always coupled, effect of complete_task. -/
theorem C6_log_error_spec (role : AgentRole) (s : AgentState) (msg : String)
    (details : List (String × String)) (now : Nat) :
    (log_error role s msg details now).errors =
      s.errors ++ [{ agent := role, message := msg, timestamp := now, details := details }] ∧
    (log_error role s msg details now).task_history = s.task_history ∧
    (log_error role s msg details now).current_task = s.current_task ∧
    (log_error role s msg details now).is_complete = s.is_complete :=
  ⟨rfl, rfl, rfl, rfl⟩

/-- C7 counterexample: a CRAWL_WEB task that fails (status FAILED,
completed_at = 1) and is then re-executed successfully becomes
COMPLETED with completed_at reassigned to 2 — a terminal status is
mutated and completed_at assigned twice, refuting monotonicity and
terminal immutability. -/
theorem C7_counterexample :
    ((WebCrawlerAgent.execute (CrawlOutcome.toolFail "no net") 1
        pendingCrawlState).task_history.getD 0 default).status = TaskStatus.FAILED ∧
    ((WebCrawlerAgent.execute (CrawlOutcome.toolFail "no net") 1
        pendingCrawlState).task_history.getD 0 default).completed_at = some 1 ∧
    ((WebCrawlerAgent.execute (CrawlOutcome.toolOk [{ url := "http://a/x.pdf" }]) 2
        (WebCrawlerAgent.execute (CrawlOutcome.toolFail "no net") 1
          pendingCrawlState)).task_history.getD 0 default).status
        = TaskStatus.COMPLETED ∧
    ((WebCrawlerAgent.execute (CrawlOutcome.toolOk [{ url := "http://a/x.pdf" }]) 2
        (WebCrawlerAgent.execute (CrawlOutcome.toolFail "no net") 1
          pendingCrawlState)).task_history.getD 0 default).completed_at = some 2 := by
  refine ⟨by decide, by decide, by decide, by decide⟩

/-- C7 (amended): along any engine step, a history slot's status is
either untouched or (re)written to a terminal value (COMPLETED or
FAILED) with completed_at set at that moment — statuses never move back
to PENDING or IN_PROGRESS, and IN_PROGRESS and SKIPPED are never
assigned.  Terminal statuses are however not immutable: a FAILED task
can be completed again (see the counterexample). -/
theorem C7_status_terminal_writes (s s' : AgentState) (h : Step s s') (j : Nat) :
    (s'.task_history.getD j default).status = (s.task_history.getD j default).status ∨
    (((s'.task_history.getD j default).status = TaskStatus.COMPLETED ∨
      (s'.task_history.getD j default).status = TaskStatus.FAILED) ∧
      (s'.task_history.getD j default).completed_at.isSome = true) :=
  step_status_change s s' h j

/-- C7 witness: the amended theorem applied to the concrete failing
crawler step on the pending CRAWL_WEB task. -/
theorem C7_witness :
    ((WebCrawlerAgent.execute (CrawlOutcome.toolFail "no net") 1
        pendingCrawlState).task_history.getD 0 default).status
      = (pendingCrawlState.task_history.getD 0 default).status ∨
    ((((WebCrawlerAgent.execute (CrawlOutcome.toolFail "no net") 1
        pendingCrawlState).task_history.getD 0 default).status = TaskStatus.COMPLETED ∨
      ((WebCrawlerAgent.execute (CrawlOutcome.toolFail "no net") 1
        pendingCrawlState).task_history.getD 0 default).status = TaskStatus.FAILED) ∧
      ((WebCrawlerAgent.execute (CrawlOutcome.toolFail "no net") 1
        pendingCrawlState).task_history.getD 0 default).completed_at.isSome = true) :=
  C7_status_terminal_writes pendingCrawlState _
    (Step.crawler (CrawlOutcome.toolFail "no net") 1 pendingCrawlState) 0

/-- C10: whenever the ExporterAgent executes an EXPORT_DATA task with
export_loop_count below MAX_LOOP = 3, the resulting state has
is_complete = true on every outcome: successful export, no articles,
export-tool failure, and raised exception. -/
theorem C10_export_always_completes (s : AgentState) (o : ExportOutcome) (now ci : Nat)
    (hc : s.current_task = some ci)
    (hty : (s.task_history.getD ci default).task_type = TaskType.EXPORT_DATA)
    (hloop : s.export_loop_count < ExporterAgent.MAX_LOOP) :
    (ExporterAgent.execute o now s).is_complete = true := by
  unfold ExporterAgent.execute
  rw [if_neg (not_le.mpr hloop)]
  rw [hc]
  dsimp only
  rw [if_neg (not_ne_iff.mpr hty)]
  split
  · rfl
  · cases o <;> rfl

/-- C10 witness: the theorem applied to the concrete ready-to-export
state for each of the four outcomes. -/
theorem C10_witness :
    exportReadyState.current_task = some 0 ∧
    (exportReadyState.task_history.getD 0 default).task_type = TaskType.EXPORT_DATA ∧
    exportReadyState.export_loop_count < ExporterAgent.MAX_LOOP ∧
    (ExporterAgent.execute (ExportOutcome.csvOk "f.csv" 9) 4 exportReadyState).is_complete
      = true ∧
    (ExporterAgent.execute (ExportOutcome.csvFail "disk full") 4
        exportReadyState).is_complete = true ∧
    (ExporterAgent.execute (ExportOutcome.raised "boom") 4 exportReadyState).is_complete
      = true :=
  ⟨rfl, rfl, by decide,
   C10_export_always_completes exportReadyState (ExportOutcome.csvOk "f.csv" 9) 4 0 rfl rfl
     (by decide),
   C10_export_always_completes exportReadyState (ExportOutcome.csvFail "disk full") 4 0 rfl
     rfl (by decide),
   C10_export_always_completes exportReadyState (ExportOutcome.raised "boom") 4 0 rfl rfl
     (by decide)⟩

/-- C8: every worker returns the state exactly unchanged when there is
no in-flight task or the in-flight task's type is not the worker's
declared type — no field modified, no task created, no error or warning
appended. -/
theorem C8_no_op_on_type_mismatch (s : AgentState) (now : Nat)
    (o1 : CrawlOutcome) (o2 : PdfOutcome) (o3 : ExtractOutcome) (o4 : SearchOutcome)
    (o5 : ScrapeOutcome) (o6 : ExportOutcome) :
    (current_type_is s TaskType.CRAWL_WEB = false →
      WebCrawlerAgent.execute o1 now s = s) ∧
    (current_type_is s TaskType.DOWNLOAD_PDF = false →
      PDFHandlerAgent.execute o2 now s = s) ∧
    (current_type_is s TaskType.EXTRACT_CONTENT = false →
      ContentExtractorAgent.execute o3 now s = s) ∧
    (current_type_is s TaskType.SEARCH_OPINIONS = false →
      SearchAgent.execute o4 now s = s) ∧
    (current_type_is s TaskType.SCRAPE_ARTICLES = false →
      ArticleAnalyzerAgent.execute o5 now s = s) ∧
    (current_type_is s TaskType.EXPORT_DATA = false →
      ExporterAgent.execute o6 now s = s) := by
  refine ⟨?_, ?_, ?_, ?_, ?_, ?_⟩
  · intro h
    unfold current_type_is at h
    unfold WebCrawlerAgent.execute
    cases hc : s.current_task with
    | none => rfl
    | some ci =>
        rw [hc] at h
        dsimp only
        rw [if_pos (beq_eq_false_iff_ne.mp h)]
  · intro h
    unfold current_type_is at h
    unfold PDFHandlerAgent.execute
    cases hc : s.current_task with
    | none => rfl
    | some ci =>
        rw [hc] at h
        dsimp only
        rw [if_pos (beq_eq_false_iff_ne.mp h)]
  · intro h
    unfold current_type_is at h
    unfold ContentExtractorAgent.execute
    cases hc : s.current_task with
    | none => rfl
    | some ci =>
        rw [hc] at h
        dsimp only
        rw [if_pos (beq_eq_false_iff_ne.mp h)]
  · intro h
    unfold current_type_is at h
    unfold SearchAgent.execute
    cases hc : s.current_task with
    | none => rfl
    | some ci =>
        rw [hc] at h
        dsimp only
        rw [if_pos (beq_eq_false_iff_ne.mp h)]
  · intro h
    unfold current_type_is at h
    unfold ArticleAnalyzerAgent.execute
    cases hc : s.current_task with
    | none => rfl
    | some ci =>
        rw [hc] at h
        dsimp only
        rw [if_pos (beq_eq_false_iff_ne.mp h)]
  · intro h
    unfold current_type_is at h
    unfold ExporterAgent.execute
    split
    · rfl
    · cases hc : s.current_task with
      | none => rfl
      | some ci =>
          rw [hc] at h
          dsimp only
          rw [if_pos (beq_eq_false_iff_ne.mp h)]

/-- C8 witness: all six workers applied to the state whose in-flight
task is a pending EXPORT_DATA task (so the first five mismatch) and to
the pending-crawl state for the exporter. -/
theorem C8_witness :
    current_type_is exportReadyState TaskType.CRAWL_WEB = false ∧
    current_type_is exportReadyState TaskType.DOWNLOAD_PDF = false ∧
    current_type_is exportReadyState TaskType.EXTRACT_CONTENT = false ∧
    current_type_is exportReadyState TaskType.SEARCH_OPINIONS = false ∧
    current_type_is exportReadyState TaskType.SCRAPE_ARTICLES = false ∧
    current_type_is pendingCrawlState TaskType.EXPORT_DATA = false ∧
    WebCrawlerAgent.execute (CrawlOutcome.raised "x") 3 exportReadyState
      = exportReadyState ∧
    PDFHandlerAgent.execute (PdfOutcome.raised "x") 3 exportReadyState
      = exportReadyState ∧
    ContentExtractorAgent.execute (ExtractOutcome.raised "x") 3 exportReadyState
      = exportReadyState ∧
    SearchAgent.execute (SearchOutcome.raised "x") 3 exportReadyState
      = exportReadyState ∧
    ArticleAnalyzerAgent.execute (ScrapeOutcome.raised "x") 3 exportReadyState
      = exportReadyState ∧
    ExporterAgent.execute (ExportOutcome.raised "x") 3 pendingCrawlState
      = pendingCrawlState :=
  ⟨by decide, by decide, by decide, by decide, by decide, by decide,
   (C8_no_op_on_type_mismatch exportReadyState 3 (CrawlOutcome.raised "x")
      (PdfOutcome.raised "x") (ExtractOutcome.raised "x") (SearchOutcome.raised "x")
      (ScrapeOutcome.raised "x") (ExportOutcome.raised "x")).1 (by decide),
   (C8_no_op_on_type_mismatch exportReadyState 3 (CrawlOutcome.raised "x")
      (PdfOutcome.raised "x") (ExtractOutcome.raised "x") (SearchOutcome.raised "x")
      (ScrapeOutcome.raised "x") (ExportOutcome.raised "x")).2.1 (by decide),
   (C8_no_op_on_type_mismatch exportReadyState 3 (CrawlOutcome.raised "x")
      (PdfOutcome.raised "x") (ExtractOutcome.raised "x") (SearchOutcome.raised "x")
      (ScrapeOutcome.raised "x") (ExportOutcome.raised "x")).2.2.1 (by decide),
   (C8_no_op_on_type_mismatch exportReadyState 3 (CrawlOutcome.raised "x")
      (PdfOutcome.raised "x") (ExtractOutcome.raised "x") (SearchOutcome.raised "x")
      (ScrapeOutcome.raised "x") (ExportOutcome.raised "x")).2.2.2.1 (by decide),
   (C8_no_op_on_type_mismatch exportReadyState 3 (CrawlOutcome.raised "x")
      (PdfOutcome.raised "x") (ExtractOutcome.raised "x") (SearchOutcome.raised "x")
      (ScrapeOutcome.raised "x") (ExportOutcome.raised "x")).2.2.2.2.1 (by decide),
   (C8_no_op_on_type_mismatch pendingCrawlState 3 (CrawlOutcome.raised "x")
      (PdfOutcome.raised "x") (ExtractOutcome.raised "x") (SearchOutcome.raised "x")
      (ScrapeOutcome.raised "x") (ExportOutcome.raised "x")).2.2.2.2.2 (by decide)⟩

/-- C3: in every reachable state at most one task per type in the
history (which contains the in-flight current task) is PENDING or
IN_PROGRESS; and whenever such a task exists for a type, a manager step
creates no further task of that type (the dedup guard suppresses it). -/
theorem C3_no_duplicate_in_flight (s : AgentState) (h : Reachable s) (ty : TaskType)
    (now : Nat) :
    (s.task_history.filter (fun k =>
        k.task_type == ty &&
        (k.status == TaskStatus.PENDING || k.status == TaskStatus.IN_PROGRESS))).length
      ≤ 1 ∧
    ((s.task_history.any (fun k =>
        k.task_type == ty &&
        (k.status == TaskStatus.PENDING || k.status == TaskStatus.IN_PROGRESS))) = true →
      count_type ty (ManagerAgent.execute now s).task_history
        = count_type ty s.task_history) := by
  have hinv := reachable_inv s h
  constructor
  · have h1 : (s.task_history.filter (fun k =>
        k.task_type == ty &&
        (k.status == TaskStatus.PENDING || k.status == TaskStatus.IN_PROGRESS))).length
        ≤ (s.task_history.filter (fun k => k.task_type == ty)).length := by
      refine length_filter_imp _ _ _ ?_
      intro a ha
      exact ((Bool.and_eq_true _ _).mp ha).1
    rw [filter_type_length_eq] at h1
    exact le_trans h1 (hinv.2 ty)
  · intro hex
    have hne : s.task_history ≠ [] := by
      intro hnil
      rw [hnil] at hex
      simp at hex
    have hcur : s.current_task ≠ none := fun hn => hne (hinv.1 hn)
    rcases manager_shape now s with ⟨hh, _⟩ | ⟨t, hh, _, _, hguard⟩
    · rw [hh]
    · rcases hguard with hnone | hany
      · exact absurd hnone hcur
      · rw [hh, count_type_append]
        have hty0 : (t.task_type == ty) = false := by
          by_contra hcon
          rw [Bool.not_eq_false] at hcon
          rcases List.any_eq_true.mp hex with ⟨k, hk, hkty⟩
          rw [Bool.and_eq_true] at hkty
          have h2 := (List.any_eq_false.mp hany) k hk
          simp only [beq_iff_eq] at hkty hcon h2
          exact h2 (hkty.1.trans hcon.symm)
        rw [hty0]
        simp

/-- C3 witness: the state after the initial manager step (one pending
CRAWL_WEB task), for the CRAWL_WEB type. -/
theorem C3_witness :
    ((afterStartState.task_history.filter (fun k =>
        k.task_type == TaskType.CRAWL_WEB &&
        (k.status == TaskStatus.PENDING || k.status == TaskStatus.IN_PROGRESS))).length
      ≤ 1) ∧
    ((afterStartState.task_history.any (fun k =>
        k.task_type == TaskType.CRAWL_WEB &&
        (k.status == TaskStatus.PENDING || k.status == TaskStatus.IN_PROGRESS))) = true →
      count_type TaskType.CRAWL_WEB (ManagerAgent.execute 2 afterStartState).task_history
        = count_type TaskType.CRAWL_WEB afterStartState.task_history) :=
  C3_no_duplicate_in_flight afterStartState
    (Reachable.step (Reachable.init "u" "p" 0) (Step.manager 1 initState))
    TaskType.CRAWL_WEB 2

/-- C9: for every task type, a reachable history contains at most one
task of that type (for types other than CRAWL_WEB this is the claim's
at-most-one-per-run); in particular once a task of a type exists with
status FAILED, a manager step never creates a second task of that type,
because the dedup check matches any occurrence regardless of status —
failed stages are never retried. -/
theorem C9_failed_stage_never_retried (s : AgentState) (h : Reachable s) (ty : TaskType)
    (_hty : ty ≠ TaskType.CRAWL_WEB) (now : Nat) :
    count_type ty s.task_history ≤ 1 ∧
    ((∃ k ∈ s.task_history, k.task_type = ty ∧ k.status = TaskStatus.FAILED) →
      count_type ty (ManagerAgent.execute now s).task_history
        = count_type ty s.task_history) := by
  have hinv := reachable_inv s h
  refine ⟨hinv.2 ty, ?_⟩
  intro hex
  rcases hex with ⟨k, hk, hkty, _⟩
  have hne : s.task_history ≠ [] := by
    intro hnil
    rw [hnil] at hk
    exact absurd hk (by simp)
  have hcur : s.current_task ≠ none := fun hn => hne (hinv.1 hn)
  rcases manager_shape now s with ⟨hh, _⟩ | ⟨t, hh, _, _, hguard⟩
  · rw [hh]
  · rcases hguard with hnone | hany
    · exact absurd hnone hcur
    · rw [hh, count_type_append]
      have hty0 : (t.task_type == ty) = false := by
        by_contra hcon
        rw [Bool.not_eq_false] at hcon
        have h2 := (List.any_eq_false.mp hany) k hk
        simp only [beq_iff_eq] at hcon h2
        exact h2 (hkty.trans hcon.symm)
      rw [hty0]
      simp

/-- C9 witness: the state after the initial manager step for the
DOWNLOAD_PDF type (zero occurrences, so the bound holds and the
retry-suppression hypothesis is discharged vacuously inside the
conclusion). -/
theorem C9_witness :
    count_type TaskType.DOWNLOAD_PDF afterStartState.task_history ≤ 1 ∧
    ((∃ k ∈ afterStartState.task_history,
        k.task_type = TaskType.DOWNLOAD_PDF ∧ k.status = TaskStatus.FAILED) →
      count_type TaskType.DOWNLOAD_PDF
          (ManagerAgent.execute 2 afterStartState).task_history
        = count_type TaskType.DOWNLOAD_PDF afterStartState.task_history) :=
  C9_failed_stage_never_retried afterStartState
    (Reachable.step (Reachable.init "u" "p" 0) (Step.manager 1 initState))
    TaskType.DOWNLOAD_PDF (by decide) 2

/-- C4 counterexample: a state whose crawl, download and extract stages
are completed but extracted_keywords is absent.  The manager step
neither creates a task (history stays at three entries) nor terminates:
is_complete remains false, contradicting the claimed skip-and-terminate
behaviour. -/
theorem C4_counterexample :
    task_type_completed noKeywordState.task_history TaskType.EXTRACT_CONTENT = true ∧
    noKeywordState.extracted_keywords = none ∧
    (ManagerAgent.execute 9 noKeywordState).is_complete = false ∧
    (ManagerAgent.execute 9 noKeywordState).task_history.length = 3 := by
  refine ⟨by decide, rfl, by decide, by decide⟩

/-- C4 (amended): when EXTRACT_CONTENT is completed but
extracted_keywords is absent (and SEARCH_OPINIONS, EXPORT_DATA are not
completed, the scrape stage is not marked done, and the earlier stages
are past), the Router creates no SEARCH_OPINIONS task, does not
terminate, and returns the state exactly unchanged — the workflow
stalls (re-dispatching the same node) instead of terminating with
is_complete = true. -/
theorem C4_no_keywords_stalls (s : AgentState) (now ci : Nat)
    (hc : s.current_task = some ci)
    (hdl : task_type_completed s.task_history TaskType.DOWNLOAD_PDF = true)
    (hex : task_type_completed s.task_history TaskType.EXTRACT_CONTENT = true)
    (hse : task_type_completed s.task_history TaskType.SEARCH_OPINIONS = false)
    (hkw : s.extracted_keywords = none)
    (hdone : s.scrape_articles_done = false)
    (hexp : task_type_completed s.task_history TaskType.EXPORT_DATA = false) :
    ManagerAgent.execute now s = s := by
  unfold ManagerAgent.execute ManagerAgent.monitor_and_decide
  rw [hc]
  dsimp only
  have hchain : chain_next now s.task_history (s.task_history.getD ci default)
      s.pdf_document s.pdf_local_path s.extracted_keywords = none := by
    unfold chain_next
    rw [hkw]
    rw [if_neg (by simp [hdl])]
    rw [if_neg (by simp [hex])]
    rw [if_pos (by simp [hex, hse])]
    rw [if_neg (by simp)]
  rw [hchain]
  have hsn : scrape_next now s.task_history (s.task_history.getD ci default)
      s.scrape_articles_done s.search_results s.processed_urls none
      = (none, s.scrape_articles_done) := by
    unfold scrape_next
    rw [if_neg (by simp [hse])]
  rw [hsn]
  dsimp only
  rw [if_neg (by simp [hdone, hexp]), if_neg (by simp [hexp])]
  rw [← hc]
  rfl

/-- C4 witness: the amended theorem applied to the concrete
no-keyword state. -/
theorem C4_witness :
    noKeywordState.current_task = some 2 ∧
    task_type_completed noKeywordState.task_history TaskType.DOWNLOAD_PDF = true ∧
    task_type_completed noKeywordState.task_history TaskType.EXTRACT_CONTENT = true ∧
    task_type_completed noKeywordState.task_history TaskType.SEARCH_OPINIONS = false ∧
    noKeywordState.extracted_keywords = none ∧
    noKeywordState.scrape_articles_done = false ∧
    task_type_completed noKeywordState.task_history TaskType.EXPORT_DATA = false ∧
    ManagerAgent.execute 9 noKeywordState = noKeywordState :=
  ⟨rfl, by decide, by decide, by decide, rfl, rfl, by decide,
   C4_no_keywords_stalls noKeywordState 9 2 rfl (by decide) (by decide) (by decide) rfl rfl
     (by decide)⟩

theorem map_getD_eq {α β : Type} (f : α → β) (l1 l2 : List α) (d : α)
    (h : l1.map f = l2.map f) (i : Nat) :
    f (l1.getD i d) = f (l2.getD i d) := by
  induction l1 generalizing l2 i with
  | nil =>
      have h0 : l2 = [] := by
        cases l2 with
        | nil => rfl
        | cons b t => simp at h
      subst h0
      rfl
  | cons a t ih =>
      cases l2 with
      | nil => simp at h
      | cons b t2 =>
          simp only [List.map_cons, List.cons.injEq] at h
          cases i with
          | zero => exact h.1
          | succ n => exact ih t2 h.2 n

theorem any_map_congr {α β : Type} (f : α → β) (p : β → Bool) (l1 l2 : List α)
    (h : l1.map f = l2.map f) :
    l1.any (fun x => p (f x)) = l2.any (fun x => p (f x)) := by
  induction l1 generalizing l2 with
  | nil =>
      cases l2 with
      | nil => rfl
      | cons b t => simp at h
  | cons a t ih =>
      cases l2 with
      | nil => simp at h
      | cons b t2 =>
          simp only [List.map_cons, List.cons.injEq] at h
          simp only [List.any_cons]
          rw [h.1, ih t2 h.2]

theorem task_type_completed_congr (l1 l2 : List Task)
    (hh : l1.map (fun k => (k.task_type, k.status))
      = l2.map (fun k => (k.task_type, k.status))) (ty : TaskType) :
    task_type_completed l1 ty = task_type_completed l2 ty := by
  unfold task_type_completed
  exact any_map_congr (fun k => (k.task_type, k.status))
    (fun x => x.2 == TaskStatus.COMPLETED && x.1 == ty) l1 l2 hh

theorem any_type_congr (l1 l2 : List Task)
    (hh : l1.map (fun k => (k.task_type, k.status))
      = l2.map (fun k => (k.task_type, k.status))) (ty : TaskType) :
    (l1.any fun k => k.task_type == ty) = (l2.any fun k => k.task_type == ty) := by
  exact any_map_congr (fun k => (k.task_type, k.status)) (fun x => x.1 == ty) l1 l2 hh

theorem getD_type_congr (l1 l2 : List Task)
    (hh : l1.map (fun k => (k.task_type, k.status))
      = l2.map (fun k => (k.task_type, k.status))) (ci : Nat) :
    (l1.getD ci default).task_type = (l2.getD ci default).task_type :=
  congrArg Prod.fst (map_getD_eq (fun k => (k.task_type, k.status)) l1 l2 default hh ci)

theorem task_already_created_congr (l1 l2 : List Task) (cur1 cur2 : Task) (ty : TaskType)
    (hh : l1.map (fun k => (k.task_type, k.status))
      = l2.map (fun k => (k.task_type, k.status)))
    (hcur : cur1.task_type = cur2.task_type) :
    task_already_created l1 cur1 ty = task_already_created l2 cur2 ty := by
  unfold task_already_created
  rw [any_type_congr l1 l2 hh ty, hcur]

theorem type_map_of_pair_map (l1 l2 : List Task)
    (hh : l1.map (fun k => (k.task_type, k.status))
      = l2.map (fun k => (k.task_type, k.status))) :
    l1.map Task.task_type = l2.map Task.task_type := by
  have h2 := congrArg (List.map Prod.fst) hh
  simpa [List.map_map, Function.comp] using h2

theorem filter_map_url (proc : List String) (l : List SearchResult) :
    (l.filter (fun r => ! proc.contains r.url)).map (fun r => r.url)
      = (l.map (fun r => r.url)).filter (fun u => ! proc.contains u) := by
  induction l with
  | nil => rfl
  | cons a t ih =>
      simp only [List.filter_cons, List.map_cons]
      by_cases h : a.url ∈ proc <;> simp [h] <;> simpa using ih

theorem chain_next_congr (now : Nat) (l1 l2 : List Task) (cur1 cur2 : Task)
    (p1 p2 : Option PDFDocument) (q1 q2 : Option String)
    (k1 k2 : Option ExtractedKeywords)
    (hh : l1.map (fun k => (k.task_type, k.status))
      = l2.map (fun k => (k.task_type, k.status)))
    (hcur : cur1.task_type = cur2.task_type)
    (hp : p1.isSome = p2.isSome) (hq : q1.isSome = q2.isSome)
    (hk : k1.isSome = k2.isSome) :
    (chain_next now l1 cur1 p1 q1 k1).map Task.task_type
      = (chain_next now l2 cur2 p2 q2 k2).map Task.task_type := by
  unfold chain_next
  rw [task_type_completed_congr l1 l2 hh TaskType.CRAWL_WEB,
      task_type_completed_congr l1 l2 hh TaskType.DOWNLOAD_PDF,
      task_type_completed_congr l1 l2 hh TaskType.EXTRACT_CONTENT,
      task_type_completed_congr l1 l2 hh TaskType.SEARCH_OPINIONS,
      task_already_created_congr l1 l2 cur1 cur2 TaskType.DOWNLOAD_PDF hh hcur,
      task_already_created_congr l1 l2 cur1 cur2 TaskType.EXTRACT_CONTENT hh hcur,
      task_already_created_congr l1 l2 cur1 cur2 TaskType.SEARCH_OPINIONS hh hcur,
      hp, hq, hk]
  cases task_type_completed l2 TaskType.CRAWL_WEB <;>
    cases task_type_completed l2 TaskType.DOWNLOAD_PDF <;>
    cases task_type_completed l2 TaskType.EXTRACT_CONTENT <;>
    cases task_type_completed l2 TaskType.SEARCH_OPINIONS <;>
    cases task_already_created l2 cur2 TaskType.DOWNLOAD_PDF <;>
    cases task_already_created l2 cur2 TaskType.EXTRACT_CONTENT <;>
    cases task_already_created l2 cur2 TaskType.SEARCH_OPINIONS <;>
    cases p2.isSome <;>
    cases q2.isSome <;>
    cases k2.isSome <;>
    rfl

theorem map_url_isEmpty (r1 r2 : List SearchResult)
    (hr : r1.map (fun r => r.url) = r2.map (fun r => r.url)) :
    r1.isEmpty = r2.isEmpty := by
  cases r1 with
  | nil =>
      cases r2 with
      | nil => rfl
      | cons b t => simp at hr
  | cons a t =>
      cases r2 with
      | nil => simp at hr
      | cons b t2 => rfl

theorem scrape_next_congr (now : Nat) (l1 l2 : List Task) (cur1 cur2 : Task)
    (done : Bool) (r1 r2 : List SearchResult) (proc : List String)
    (prev1 prev2 : Option Task)
    (hh : l1.map (fun k => (k.task_type, k.status))
      = l2.map (fun k => (k.task_type, k.status)))
    (hcur : cur1.task_type = cur2.task_type)
    (hr : r1.map (fun r => r.url) = r2.map (fun r => r.url))
    (hprev : prev1.map Task.task_type = prev2.map Task.task_type) :
    (scrape_next now l1 cur1 done r1 proc prev1).1.map Task.task_type
      = (scrape_next now l2 cur2 done r2 proc prev2).1.map Task.task_type ∧
    (scrape_next now l1 cur1 done r1 proc prev1).2
      = (scrape_next now l2 cur2 done r2 proc prev2).2 := by
  have hurls : (r1.filter (fun r => ! proc.contains r.url)).map (fun r => r.url)
      = (r2.filter (fun r => ! proc.contains r.url)).map (fun r => r.url) := by
    rw [filter_map_url, filter_map_url, hr]
  have hemp : r1.isEmpty = r2.isEmpty := map_url_isEmpty r1 r2 hr
  unfold scrape_next
  rw [task_type_completed_congr l1 l2 hh TaskType.SEARCH_OPINIONS,
      any_type_congr l1 l2 hh TaskType.SCRAPE_ARTICLES, hcur, hemp, hurls]
  dsimp only
  cases (task_type_completed l2 TaskType.SEARCH_OPINIONS && !done
      && !((l2.any fun k => k.task_type == TaskType.SCRAPE_ARTICLES)
            || cur2.task_type == TaskType.SCRAPE_ARTICLES)) <;>
    cases r2.isEmpty <;>
    cases ((r2.filter (fun r => ! proc.contains r.url)).map (fun r => r.url)).isEmpty <;>
    first
      | exact ⟨hprev, rfl⟩
      | exact ⟨rfl, rfl⟩

theorem dispatch_next_obs (now : Nat) (x1 x2 : AgentState) (n1 n2 : Option Task)
    (hh : x1.task_history.map Task.task_type = x2.task_history.map Task.task_type)
    (hic : x1.is_complete = x2.is_complete)
    (hsd : x1.scrape_articles_done = x2.scrape_articles_done)
    (hn : n1.map Task.task_type = n2.map Task.task_type) :
    ((dispatch_next now x1 n1).task_history.map Task.task_type,
     (dispatch_next now x1 n1).is_complete,
     (dispatch_next now x1 n1).scrape_articles_done)
    = ((dispatch_next now x2 n2).task_history.map Task.task_type,
       (dispatch_next now x2 n2).is_complete,
       (dispatch_next now x2 n2).scrape_articles_done) := by
  cases n1 with
  | none =>
      cases n2 with
      | none =>
          unfold dispatch_next
          rw [hh, hic, hsd]
      | some t2 => simp at hn
  | some t1 =>
      cases n2 with
      | none => simp at hn
      | some t2 =>
          simp only [Option.map_some'] at hn
          injection hn with hn
          unfold dispatch_next update_state_meta
          dsimp only
          rw [List.map_append, List.map_append, hh, hic, hsd]
          simp [hn]

/-- C5 counterexample: two states with literally identical task_history
(one completed SEARCH_OPINIONS task) and identical loop counters that
differ only in search_results.  The Router dispatches a SCRAPE_ARTICLES
task in one (history grows to 2, not complete) and terminates the other
(history stays 1, is_complete set) — different decisions from identical
history and counters. -/
theorem C5_counterexample :
    oneResultState.task_history = noResultState.task_history ∧
    oneResultState.scrape_loop_count = noResultState.scrape_loop_count ∧
    oneResultState.export_loop_count = noResultState.export_loop_count ∧
    (ManagerAgent.execute 7 oneResultState).task_history.length = 2 ∧
    ((ManagerAgent.execute 7 oneResultState).task_history.getD 1 default).task_type
      = TaskType.SCRAPE_ARTICLES ∧
    (ManagerAgent.execute 7 oneResultState).is_complete = false ∧
    (ManagerAgent.execute 7 noResultState).task_history.length = 1 ∧
    (ManagerAgent.execute 7 noResultState).is_complete = true := by
  refine ⟨rfl, rfl, rfl, by decide, by decide, by decide, by decide, by decide⟩

/-- C5 (amended): the Router decision is a deterministic function of
what it actually reads, which is more than history and counters: two
states agreeing on task_history (types and statuses), current_task,
both loop counters, presence of pdf_document / pdf_local_path /
extracted_keywords, the search result urls, processed_urls,
scrape_articles_done, emptiness of analyzed_articles, and is_complete
produce the same routing observation (same task-type sequence in the
resulting history, same is_complete, same scrape flag). -/
theorem C5_router_determinism (now : Nat) (s1 s2 : AgentState) (h : RouterAgree s1 s2) :
    router_obs now s1 = router_obs now s2 := by
  obtain ⟨hh, hcur, hslc, helc, hp, hq, hk, hr, hproc, hdone, hart, hic⟩ := h
  have htm := type_map_of_pair_map _ _ hh
  unfold router_obs ManagerAgent.execute
  rw [hcur]
  cases hc2 : s2.current_task with
  | none =>
      unfold ManagerAgent.start_workflow
      exact dispatch_next_obs now s1 s2 _ _ htm hic hdone rfl
  | some ci =>
      unfold ManagerAgent.monitor_and_decide
      rw [hcur, hc2]
      dsimp only
      have hcurty := getD_type_congr s1.task_history s2.task_history hh ci
      have hchain := chain_next_congr now s1.task_history s2.task_history
          (s1.task_history.getD ci default) (s2.task_history.getD ci default)
          s1.pdf_document s2.pdf_document s1.pdf_local_path s2.pdf_local_path
          s1.extracted_keywords s2.extracted_keywords hh hcurty hp hq hk
      rw [hdone, hproc]
      have hscrape := scrape_next_congr now s1.task_history s2.task_history
          (s1.task_history.getD ci default) (s2.task_history.getD ci default)
          s2.scrape_articles_done s1.search_results s2.search_results
          s2.processed_urls
          (chain_next now s1.task_history (s1.task_history.getD ci default)
            s1.pdf_document s1.pdf_local_path s1.extracted_keywords)
          (chain_next now s2.task_history (s2.task_history.getD ci default)
            s2.pdf_document s2.pdf_local_path s2.extracted_keywords)
          hh hcurty hr hchain
      rw [hscrape.2,
          task_type_completed_congr s1.task_history s2.task_history hh
            TaskType.EXPORT_DATA,
          task_already_created_congr s1.task_history s2.task_history
            (s1.task_history.getD ci default) (s2.task_history.getD ci default)
            TaskType.EXPORT_DATA hh hcurty,
          hart]
      by_cases h1 : ((scrape_next now s2.task_history (s2.task_history.getD ci default)
          s2.scrape_articles_done s2.search_results s2.processed_urls
          (chain_next now s2.task_history (s2.task_history.getD ci default)
            s2.pdf_document s2.pdf_local_path s2.extracted_keywords)).2
          && ! task_type_completed s2.task_history TaskType.EXPORT_DATA) = true
      · rw [if_pos h1, if_pos h1]
        by_cases h2 : (! task_already_created s2.task_history
            (s2.task_history.getD ci default) TaskType.EXPORT_DATA) = true
        · rw [if_pos h2, if_pos h2]
          by_cases h3 : (! s2.analyzed_articles.isEmpty) = true
          · rw [if_pos h3, if_pos h3]
            exact dispatch_next_obs now _ _ _ _ htm hic rfl rfl
          · rw [if_neg h3, if_neg h3]
            exact dispatch_next_obs now _ _ _ _ htm rfl rfl hscrape.1
        · rw [if_neg h2, if_neg h2]
          exact dispatch_next_obs now _ _ _ _ htm hic rfl hscrape.1
      · rw [if_neg h1, if_neg h1]
        by_cases h4 : task_type_completed s2.task_history TaskType.EXPORT_DATA = true
        · rw [if_pos h4, if_pos h4]
          exact congrArg (fun l => (l, true,
            (scrape_next now s2.task_history (s2.task_history.getD ci default)
              s2.scrape_articles_done s2.search_results s2.processed_urls
              (chain_next now s2.task_history (s2.task_history.getD ci default)
                s2.pdf_document s2.pdf_local_path s2.extracted_keywords)).2)) htm
        · rw [if_neg h4, if_neg h4]
          exact dispatch_next_obs now _ _ _ _ htm hic rfl hscrape.1

/-- C5 witness: the amended theorem applied to the one-result state and
a variant differing only in fields the Router does not read. -/
theorem C5_witness :
    RouterAgree oneResultState oneResultStateB ∧
    router_obs 7 oneResultState = router_obs 7 oneResultStateB :=
  ⟨⟨rfl, rfl, rfl, rfl, rfl, rfl, rfl, rfl, rfl, rfl, rfl, rfl⟩,
   C5_router_determinism 7 oneResultState oneResultStateB
     ⟨rfl, rfl, rfl, rfl, rfl, rfl, rfl, rfl, rfl, rfl, rfl, rfl⟩⟩

end Thamluan
